import Mathlib

/-
Verification development for the Renderly video-generation pipeline.

The definitions below are a shallow embedding of the repository's Python
sources (`video_generation/tasks.py`, `video_generation/services/*.py`,
`video_generation/models.py`, `video_generation/serializers.py`).  Remote
HTTP calls, object storage, the database and the clock are modelled as
oracle environments; strings are modelled as `String` or `List Char`
(the latter when Python string algorithms are re-proved character by
character).  Each embedded definition cites the source lines it mirrors.
-/

set_option autoImplicit false

namespace Renderly

/-! ## Python string primitives

`gcs_to_public_url` (heygen_service.py lines 14-21) uses
`str.replace("gs://", "")` and `str.split("/", 1)`.  We model Python
strings as `List Char` and re-implement exactly those two primitives:
`str.replace` deletes every non-overlapping occurrence scanning left to
right, and `split(sep, 1)` splits at the first occurrence only. -/

/-- Models `strStartsWith s pat` : `pat` occurs at the start of `s`
(Python `s.startswith(pat)`). -/
def strStartsWith : List Char → List Char → Bool
  | _, [] => true
  | [], _ :: _ => false
  | c :: cs, p :: ps => c == p && strStartsWith cs ps

/-- Models `containsSub pat s` : `pat` occurs somewhere inside `s`
(Python `pat in s`). -/
def containsSub (pat : List Char) : List Char → Bool
  | [] => strStartsWith [] pat
  | c :: cs => strStartsWith (c :: cs) pat || containsSub pat cs

/-- The characters of the literal `"gs://"`. -/
def gsScheme : List Char := ['g', 's', ':', '/', '/']

/-- Python `uri.replace("gs://", "")` (heygen_service.py line 17): delete
every non-overlapping occurrence of `"gs://"`, scanning left to right. -/
def stripAllGs : List Char → List Char
  | 'g' :: 's' :: ':' :: '/' :: '/' :: rest => stripAllGs rest
  | c :: cs => c :: stripAllGs cs
  | [] => []

/-- Python `uri.split(sep, 1)` (heygen_service.py line 18): split at the
first occurrence of `sep`; `none` in the second component means `sep`
does not occur (Python returns a one-element list). -/
def pySplitOnce (sep : Char) : List Char → List Char × Option (List Char)
  | [] => ([], none)
  | c :: cs =>
    if c == sep then ([], some cs)
    else
      let r := pySplitOnce sep cs
      (c :: r.1, r.2)

/-- Models `HeyGenService.gcs_to_public_url` (heygen_service.py lines 14-21):

    uri = gcs_uri.replace("gs://", "")
    parts = uri.split("/", 1)
    if len(parts) == 1: return f"https://storage.googleapis.com/{parts[0]}"
    return f"https://storage.googleapis.com/{parts[0]}/{parts[1]}" -/
def gcs_to_public_url (gcsUri : List Char) : List Char :=
  match pySplitOnce '/' (stripAllGs gcsUri) with
  | (p0, none) => "https://storage.googleapis.com/".data ++ p0
  | (p0, some p1) => "https://storage.googleapis.com/".data ++ p0 ++ '/' :: p1

/-! ## JSON values

`HeyGenService._extract_asset_id` (heygen_service.py lines 31-58) walks a
parsed JSON response.  We model the JSON values it can meet: strings,
objects (association lists with distinct keys, as Python dicts), and
`null` (Python `None`).  Other JSON leaf kinds never reach the inspected
keys in the documented response shapes; a string carrier loses no
generality for the id values the claims quantify over. -/

inductive JVal where
  | jstr (s : String)
  | jobj (fields : List (String × JVal))
  | jnull

/-- Python `d.get(k)`: `some v` when the key is present, `none` otherwise
(a present key bound to `None` yields `some .jnull`). -/
def jget (fields : List (String × JVal)) (k : String) : Option JVal :=
  match fields with
  | [] => none
  | (k', v) :: rest => if k' = k then some v else jget rest k

/-- Python truthiness for the JSON values we model: `None`, `""` and `{}`
are falsy, everything else truthy. -/
def jTruthy : JVal → Bool
  | .jnull => false
  | .jstr s => !(s = "")
  | .jobj fields => !fields.isEmpty

/-- Python `a or b` on JSON values. -/
def jPyOr (a b : JVal) : JVal := if jTruthy a then a else b

/-! ## HeyGenService (heygen_service.py) -/

/-- Models `HeyGenService._extract_asset_id` (heygen_service.py lines 31-58).
Returns the Python value the function returns; Python `None` is `.jnull`
(both an explicit `return None` and a present key bound to `None`). -/
def extract_asset_id (data : JVal) : JVal :=
  match data with
  | .jobj fs =>
    -- Direct keys
    match jget fs "asset_id" with
    | some v => v
    | none =>
    match jget fs "video_asset_id" with
    | some v => v
    | none =>
    -- d = data.get("data") or {}
    let d := jPyOr ((jget fs "data").getD .jnull) (.jobj [])
    match d with
    | .jobj dfs =>
      (match jget dfs "asset_id" with
       | some v => v
       | none =>
       match jget dfs "video_asset_id" with
       | some v => v
       | none =>
       match jget dfs "id" with
       | some v => v
       | none =>
         -- a = d.get("asset") if isinstance(d, dict) else None
         match (jget dfs "asset").getD .jnull with
         | .jobj afs =>
           -- return a.get("asset_id") or a.get("id")
           jPyOr ((jget afs "asset_id").getD .jnull) ((jget afs "id").getD .jnull)
         | _ => .jnull)
    | _ =>
      -- d not a dict: both nested lookups are skipped, fall through to None
      .jnull
  | _ => .jnull  -- `if not isinstance(data, dict): return None`

/-- Outcome taxonomy of `HeyGenService.upload_video_asset`
(heygen_service.py lines 134-175).  Every failure is raised as a Python
`RuntimeError`; the constructors record which branch built the message,
matching the spec's §7 error kinds, and carry the exact message text
(resp. the response data for the missing-id case, which the code embeds
in the message). -/
inductive UploadOutcome where
  /-- Status 200 and a truthy extracted id: the returned asset id. -/
  | ok (assetId : JVal)
  /-- Status 200 but no truthy asset id:
  `RuntimeError(f"HeyGen upload returned success but no asset_id: {data}")`. -/
  | remoteNoId (data : JVal)
  /-- Status 401: `RuntimeError` whose message is built at lines 154-158. -/
  | authError (msg : String)
  /-- Status 400: `RuntimeError` whose message is built at line 163. -/
  | validationFailure (msg : String)
  /-- any other status: `RuntimeError` whose message is built at line 168. -/
  | remoteFailure (msg : String)

/-- The status-code classification of `HeyGenService.upload_video_asset`
(heygen_service.py lines 143-170), applied to the parsed response body
`data` and its raw text `text`.  The surrounding download/API-key steps
and the network-error catch (lines 109-132, 172-175) are upstream of the
classification the claim is about. -/
def upload_video_asset_classify (status : Nat) (data : JVal) (text : String) :
    UploadOutcome :=
  if status = 200 then
    let assetId := extract_asset_id data
    if jTruthy assetId then .ok assetId else .remoteNoId data
  else if status = 401 then
    .authError ("❌ Authentication failed (401). Please check your HEYGEN_API_KEY. Response: "
      ++ text)
  else if status = 400 then
    .validationFailure ("❌ Bad request (400). Response: " ++ text)
  else
    .remoteFailure ("❌ Upload failed with status " ++ toString status ++ ": " ++ text)

/-- One attempt's outcome for the POST in
`HeyGenService.generate_avatar_video` (heygen_service.py lines 227-234),
as seen by the `except` clauses: a parsed 2xx response (with the value
of `(data.get("data") or {}).get("video_id") or data.get("video_id")`,
`none` when that is falsy), an `httpx.HTTPStatusError` with its response
status and body, or an `httpx.RequestError` with its message. -/
inductive GenAttempt where
  | ok (videoId : Option String)
  | httpStatusError (status : Nat) (body : String)
  | requestError (msg : String)
deriving Repr, DecidableEq

/-- The `last_error` variable of `generate_avatar_video`: `none`, or a
recorded `httpx.RequestError` message.  (A recorded `HTTPStatusError`
always `break`s the loop and is raised at once, so it never survives to
the post-loop raise with further attempts pending; we inline that raise
at the `break` site.) -/
def genFinalMsg : Option String → String
  | none => "HeyGen generate failed with unknown error"
  | some m => "HeyGen generate failed: " ++ m

/-- The retry loop of `HeyGenService.generate_avatar_video`
(heygen_service.py lines 221-279), iterating over `attempt in range(3)`.
`attempts` holds the outcome each iteration would observe (the head is
consumed first); `attempt` is the loop index and `lastError` the running
`last_error`.  Returns the result (`ok video_id` or the raised
`RuntimeError` message) together with the list of `time.sleep` durations
executed, in order (line 253: `2 * (attempt + 1)` on 502/429, line 267:
the same on a network error). -/
def genAvatarLoop : List GenAttempt → Nat → Option String →
    Except String String × List Nat
  | [], _, lastError => (.error (genFinalMsg lastError), [])
  | a :: rest, attempt, lastError =>
    match a with
    | .ok (some vid) => (.ok vid, [])
    | .ok none =>
      -- `raise RuntimeError("No video_id in response")` is not caught by the
      -- two `except httpx...` clauses and propagates out of the loop.
      (.error "No video_id in response", [])
    | .httpStatusError status body =>
      if status = 502 ∨ status = 429 then
        let r := genAvatarLoop rest (attempt + 1) lastError
        (r.1, 2 * (attempt + 1) :: r.2)
      else
        -- `last_error = e; break` then the post-loop raise at lines 271-276
        (.error ("HeyGen generate failed: " ++ toString status ++ " " ++ body), [])
    | .requestError msg =>
      let r := genAvatarLoop rest (attempt + 1) (some msg)
      (r.1, 2 * (attempt + 1) :: r.2)

/-- Models `HeyGenService.generate_avatar_video` (heygen_service.py lines
177-279): three attempts over the per-attempt outcomes `attempts`. -/
def generate_avatar_video (attempts : List GenAttempt) :
    Except String String × List Nat :=
  genAvatarLoop (attempts.take 3) 0 none

/-- Errors raised by the polling routines: Python `RuntimeError` vs
`TimeoutError`. -/
inductive PollErr where
  | runtime (msg : String)
  | timeout (msg : String)
deriving Repr, DecidableEq

/-- Python `x or "Unknown error"` on an optional error-detail string. -/
def pyOrStr (a : Option String) (b : String) : String :=
  match a with
  | some s => if s = "" then b else s
  | none => b

/-- One poll iteration's outcome for
`HeyGenService.poll_video_status` (heygen_service.py lines 296-355), as
seen by its `try/except` arms: a parsed 2xx response carrying the status
value extracted at line 309 and, when present, the `video_url` of line
317 and the `error` detail of line 326; a read timeout; an
`httpx.HTTPStatusError`; or an `httpx.RequestError`. -/
inductive HeyPollAttempt where
  | ok (statusVal : Option String) (videoUrl : Option String) (errorInfo : Option String)
  | readTimeout
  | httpStatusError (status : Nat) (body : String)
  | requestError (msg : String)
deriving Repr, DecidableEq

/-- Decimal rendering of `seconds / 60` with one decimal digit
(Python `f"{x / 60:.1f}"` at line 359; the digit is exact for the
default budget 120 × 10 s = 20.0 minutes — floor-of-tenths otherwise). -/
def fmtMinutesTenths (seconds : Nat) : String :=
  toString (seconds * 10 / 60 / 10) ++ "." ++ toString (seconds * 10 / 60 % 10)

/-- The `TimeoutError` message of `poll_video_status`
(heygen_service.py lines 358-363). -/
def heygenPollTimeoutMsg (maxRetries interval : Nat) (videoId : String) : String :=
  "⏱️  Polling timed out after " ++ toString (maxRetries * interval) ++ "s (~"
    ++ fmtMinutesTenths (maxRetries * interval) ++ " minutes). "
    ++ "Video might still be processing on HeyGen. "
    ++ "Check your HeyGen dashboard or try fetching status again with video_id: "
    ++ videoId

/-- The loop body of `HeyGenService.poll_video_status`
(heygen_service.py lines 296-363).  `env` gives the outcome of the
status request on each retry index; the recursion counts down the
remaining budget of `max_retries` iterations, `retry` being the current
index.  `time.sleep` calls are not observable in the claims and are
dropped. -/
def heygenPollLoop (env : Nat → HeyPollAttempt) (maxRetries interval : Nat)
    (videoId : String) : Nat → Nat → Except PollErr String
  | _, 0 => .error (.timeout (heygenPollTimeoutMsg maxRetries interval videoId))
  | retry, remaining + 1 =>
    match env retry with
    | .ok statusVal videoUrl errorInfo =>
      if statusVal = some "completed" then
        match videoUrl with
        | some u => .ok u
        | none => .error (.runtime "HeyGen final video_url not found in response")
      else if statusVal = some "failed" then
        .error (.runtime ("HeyGen video failed: " ++ pyOrStr errorInfo "Unknown error"))
      else
        heygenPollLoop env maxRetries interval videoId (retry + 1) remaining
    | .readTimeout =>
      heygenPollLoop env maxRetries interval videoId (retry + 1) remaining
    | .httpStatusError status body =>
      if status = 502 ∨ status = 503 ∨ status = 429 then
        heygenPollLoop env maxRetries interval videoId (retry + 1) remaining
      else
        .error (.runtime ("Status check failed with " ++ toString status ++ ": " ++ body))
    | .requestError _ =>
      heygenPollLoop env maxRetries interval videoId (retry + 1) remaining

/-- Models `HeyGenService.poll_video_status` (heygen_service.py lines 281-363),
default budget `max_retries = 120`, `interval = 10`. -/
def poll_video_status (env : Nat → HeyPollAttempt) (videoId : String)
    (maxRetries : Nat := 120) (interval : Nat := 10) : Except PollErr String :=
  heygenPollLoop env maxRetries interval videoId 0 maxRetries

/-! ## VeoService.poll_operation (veo_service.py lines 182-267)

The poll loop fetches the operation from a list of candidate endpoint
URLs and falls back to probing the expected storage location.  Each of
those steps is remote I/O, modelled by per-attempt oracles:

- `fetch a` — the combined result of the inner `for u in urls` loop on
  attempt `a` (lines 203-215): a parsed response (its `done` flag and
  the output URIs extracted at lines 227-237 from `response.videos` /
  `response.predictions`), a 401 (raised immediately at line 214), or
  all candidate URLs failing with non-401 errors;
- `probe a` — the result of `_wait_for_public_gcs_output` followed by
  `_list_public_gcs_mp4` on attempt `a` (each returns an optional
  `gs://` URI; the combined first-hit is what the caller consumes);
- `finalWait` — the result of the trailing `_wait_for_gcs_output`
  fallback (line 258 inside `done`-handling uses the same oracle at the
  current attempt index; line 258 after the loop uses `finalWait`). -/

inductive VeoFetch where
  /-- Some candidate URL answered 2xx; `done` flag and extracted URIs. -/
  | got (done : Bool) (uris : List String)
  /-- A candidate URL answered 401 (fatal, line 213-214). -/
  | auth401 (body : String)
  /-- Every candidate URL failed with a non-401 `HTTPStatusError`. -/
  | failedAll
deriving Repr, DecidableEq

structure VeoPollEnv where
  fetch : Nat → VeoFetch
  /-- Models `_wait_for_gcs_output` at the `done`-fallback (line 239), per attempt. -/
  waitGcs : Nat → Option String
  /-- Models `_wait_for_public_gcs_output` / `_list_public_gcs_mp4` chain, per attempt. -/
  probe : Nat → Option String
  /-- Models `_wait_for_gcs_output` after the loop (line 258). -/
  finalWait : Option String
  /-- probe chain after the loop (lines 261-266). -/
  finalProbe : Option String

/-- The fixed `TimeoutError` message of `poll_operation` (line 267). -/
def veoPollTimeoutMsg : String := "Veo operation polling timed out"

/-- The post-loop fallback and raise of `poll_operation` (lines 257-267). -/
def veoPollFinal (env : VeoPollEnv) (hasExpectedUri : Bool) : Except PollErr String :=
  if hasExpectedUri then
    match env.finalWait with
    | some u => .ok u
    | none =>
      match env.finalProbe with
      | some u => .ok u
      | none => .error (.timeout veoPollTimeoutMsg)
  else
    .error (.timeout veoPollTimeoutMsg)

/-- The retry loop of `poll_operation` (lines 198-256); `attempt` is the
current index, the second argument the remaining budget. -/
def veoPollLoop (env : VeoPollEnv) (hasExpectedUri : Bool) :
    Nat → Nat → Except PollErr String
  | _, 0 => veoPollFinal env hasExpectedUri
  | attempt, remaining + 1 =>
    match env.fetch attempt with
    | .auth401 body =>
      .error (.runtime ("Veo poll_operation authentication failed: " ++ body))
    | .failedAll =>
      -- `if not got_data:` (lines 216-225)
      if hasExpectedUri then
        match env.probe attempt with
        | some u => .ok u
        | none => veoPollLoop env hasExpectedUri (attempt + 1) remaining
      else
        veoPollLoop env hasExpectedUri (attempt + 1) remaining
    | .got done uris =>
      if done then
        -- lines 226-247
        match uris with
        | u :: _ => .ok u
        | [] =>
          if hasExpectedUri then
            match env.waitGcs attempt with
            | some u => .ok u
            | none =>
              match env.probe attempt with
              | some u => .ok u
              | none => veoPollLoop env hasExpectedUri (attempt + 1) remaining
          else
            veoPollLoop env hasExpectedUri (attempt + 1) remaining
      else
        -- lines 248-255
        if hasExpectedUri then
          match env.probe attempt with
          | some u => .ok u
          | none => veoPollLoop env hasExpectedUri (attempt + 1) remaining
        else
          veoPollLoop env hasExpectedUri (attempt + 1) remaining

/-- Models `VeoService.poll_operation` with its default budget
`max_retries = 120` (veo_service.py line 182). -/
def poll_operation (env : VeoPollEnv) (hasExpectedUri : Bool)
    (maxRetries : Nat := 120) : Except PollErr String :=
  veoPollLoop env hasExpectedUri 0 maxRetries

/-! ## merge_service.py

`merge_scene_urls_to_gcs` (lines 54-57) composes `_download_to_temp`
(lines 10-18), `_concat_with_ffmpeg` (lines 20-42) and `_upload_to_gcs`
(lines 44-52).  Temporary files created by `tempfile.mkstemp` are
modelled by `TempFile` identifiers; the model tracks the multiset of
temp files currently on disk so that leak claims are statable.  The
remote/tool steps (HTTP download, the ffmpeg invocation, the GCS
upload) are oracles. -/

inductive TempFile where
  /-- the `.mp4` temp of `_download_to_temp` for the i-th URL. -/
  | download (i : Nat)
  /-- the `.txt` concat-list temp of `_concat_with_ffmpeg` (line 23). -/
  | listFile
  /-- the output `.mp4` temp of `_concat_with_ffmpeg` (line 28). -/
  | output
deriving Repr, DecidableEq

structure MergeEnv where
  /-- outcome of the HTTP download of the i-th URL (lines 13-17). -/
  downloadResult : Nat → Except String Unit
  /-- Models `shutil.which('ffmpeg') is not None` (line 21). -/
  ffmpegInstalled : Bool
  /-- outcome of the `ffmpeg ... .run(...)` invocation (lines 30-35). -/
  ffmpegRunResult : Except String Unit
  /-- outcome of `blob.upload_from_filename` (line 51). -/
  uploadResult : Except String Unit

/-- Models `_download_to_temp` for the i-th URL: `mkstemp` creates the file
first; a download failure raises with the file left on disk. -/
def download_to_temp (env : MergeEnv) (i : Nat) (fs : List TempFile) :
    List TempFile × Except String TempFile :=
  let fs := fs ++ [.download i]
  match env.downloadResult i with
  | .error e => (fs, .error e)
  | .ok _ => (fs, .ok (.download i))

/-- The list comprehension `[ _download_to_temp(url) for url in scene_urls ]`
(line 55): sequential downloads, first failure propagates. -/
def downloadAll (env : MergeEnv) : List String → Nat → List TempFile →
    List TempFile × Except String (List TempFile)
  | [], _, fs => (fs, .ok [])
  | _ :: rest, i, fs =>
    match download_to_temp env i fs with
    | (fs, .error e) => (fs, .error e)
    | (fs, .ok p) =>
      match downloadAll env rest (i + 1) fs with
      | (fs, .error e) => (fs, .error e)
      | (fs, .ok ps) => (fs, .ok (p :: ps))

/-- Models `_concat_with_ffmpeg` (lines 20-42).  Returns the filesystem state,
and on success the output temp path together with the concat-list lines
(`file '<p>'` per input, in list order — line 27). -/
def concat_with_ffmpeg (env : MergeEnv) (paths : List TempFile) (fs : List TempFile) :
    List TempFile × Except String (TempFile × List TempFile) :=
  if !env.ffmpegInstalled then
    (fs, .error "FFmpeg is not installed or not in PATH. Install ffmpeg to enable scene merging.")
  else
    let fs := fs ++ [TempFile.listFile]   -- mkstemp for the list file (line 23)
    let fs := fs ++ [TempFile.output]     -- mkstemp for the output (line 28)
    match env.ffmpegRunResult with
    | .error e => (fs, .error e)          -- ffmpeg raised: nothing removed
    | .ok _ =>
      -- os.remove(list_path); os.remove(p) for p in paths (lines 36-41)
      let fs := fs.erase TempFile.listFile
      let fs := paths.foldl (fun acc p => acc.erase p) fs
      (fs, .ok (.output, paths))

/-- Models `_upload_to_gcs` (lines 44-52): uploads and returns the target URI. -/
def upload_to_gcs (env : MergeEnv) (targetGcsUri : String) : Except String String :=
  match env.uploadResult with
  | .error e => .error e
  | .ok _ => .ok targetGcsUri

/-- Result of a `merge_scene_urls_to_gcs` run: the returned value or the
raised error, the temp files still on disk on exit, and the concat-list
order actually passed to ffmpeg (when reached). -/
structure MergeRun where
  result : Except String String
  leftover : List TempFile
  concatOrder : Option (List TempFile)
deriving Repr

/-- Models `merge_scene_urls_to_gcs` (merge_service.py lines 54-57). -/
def merge_scene_urls_to_gcs (env : MergeEnv) (sceneUrls : List String)
    (targetGcsUri : String) : MergeRun :=
  match downloadAll env sceneUrls 0 [] with
  | (fs, .error e) => ⟨.error e, fs, none⟩
  | (fs, .ok tempPaths) =>
    match concat_with_ffmpeg env tempPaths fs with
    | (fs, .error e) => ⟨.error e, fs, none⟩
    | (fs, .ok (_mergedPath, order)) =>
      match upload_to_gcs env targetGcsUri with
      | .error e => ⟨.error e, fs, some order⟩
      | .ok uri => ⟨.ok uri, fs, some order⟩  -- `merged_path` is never removed

/-! ## The job record and the pipeline (models.py, tasks.py)

`VideoJob` mirrors the persisted fields of `models.VideoJob` that the
pipeline reads or writes.  `created_at` appears twice, in the two forms
the task would consume it: the `%Y-%m-%d` date used in storage paths
(line 25 of tasks.py) and a timestamp for the processing duration that
only the unreachable completion write (lines 86-89) would read.  The
avatar placement floats are pass-through values never computed on; a
rational carrier is used.  Blank-capable `CharField`/`URLField` columns
default to `""` as in Django; nullable columns are `Option`. -/

structure Scene where
  visual_description : String
  camera_movement : String
  mood : String
  duration : Nat
deriving Repr, DecidableEq

structure VideoJob where
  id : String
  product_id : Option String
  product_title : String
  scenes_data : List Scene
  avatar_script : String
  avatar_id : String
  voice_id : String
  image_url : String
  avatar_scale : Rat
  avatar_x : Rat
  avatar_y : Rat
  status : String
  progress : Nat
  error_message : Option String
  veo_video_gcs_uri : String
  veo_video_url : String
  heygen_video_id : String
  heygen_asset_id : String
  final_video_url : String
  created_date : String
  created_ts : Int
  completed_at : Option Int
  processing_time_seconds : Option Int
  credits_used : Nat
deriving Repr, DecidableEq

/-- Python `job.product_id or job.id` (tasks.py lines 25, 44, 73):
`None` and `""` fall through to the id. -/
def pyOrId (productId : Option String) (id : String) : String :=
  match productId with
  | some s => if s = "" then id else s
  | none => id

/-- The prompt built per scene at tasks.py line 24. -/
def buildPrompt (productTitle : String) (s : Scene) : String :=
  productTitle ++ " | " ++ s.visual_description ++ " | " ++ s.camera_movement
    ++ " | " ++ s.mood

/-- The remote calls issued by `process_video_job`, in issue order.
`extendCall` is the event `VeoService.extend_video` would record; the
constructor exists so that "extend is never called" is statable. -/
inductive CallEvent where
  | genBase (sceneIdx : Nat) (prompt : String) (storagePfx : String)
  | extendCall (sceneIdx : Nat)
  | pollOp (sceneIdx : Nat) (storagePfx : String)
  | mergeCall (urls : List String) (target : String)
  | uploadAsset (videoUrl : String)
  | genAvatar (assetId : String)
  | pollStatus (videoId : String)
deriving Repr, DecidableEq

/-- The environment of one `process_video_job` run: settings and the
outcome of every remote step.  Each `Except.error e` stands for the
Python exception the step would raise, rendered through `str(e)` as the
handler at tasks.py line 96 does. -/
structure PipelineEnv where
  /-- Models `settings.GCS_BUCKET`. -/
  gcsBucket : String
  /-- Models `veo.generate_base_video(prompts[i], ...)` per 0-based scene index:
  the operation name of the returned JSON (`base_result['name']`). -/
  genBaseResult : Nat → Except String String
  /-- Models `veo.poll_operation(...)` per 0-based scene index: the resolved URI. -/
  pollOpResult : Nat → Except String String
  /-- Models `hey.make_fetchable_url(uri)`. -/
  makeFetchableUrl : String → Except String String
  /-- Models `merge_scene_urls_to_gcs(scene_urls, target_gcs)`. -/
  mergeResult : List String → String → Except String String
  /-- Models `hey.upload_video_asset(url)`: the asset id. -/
  uploadAssetResult : String → Except String String
  /-- Models `hey.generate_avatar_video(...)`: the video id. -/
  genAvatarResult : Except String String
  /-- Models `hey.poll_video_status(video_id)`: the final URL. -/
  pollStatusResult : Except String String

/-- Output of the `try` body (tasks.py lines 16-91): the final saved job
on success or the raised exception's message, plus every `job.save()`
snapshot in order and the remote-call trace. -/
structure BodyOut where
  result : Except String VideoJob
  saves : List VideoJob
  trace : List CallEvent

/-- Result of a whole `process_video_job` invocation: the job row as
persisted when the task returns, all persisted snapshots in order, and
the remote-call trace. -/
structure RunResult where
  db : VideoJob
  saves : List VideoJob
  trace : List CallEvent

/-- The extension-scene loop of tasks.py lines 35-42
(`for i in range(1, len(prompts))`): for each remaining prompt,
`generate_base_video`, checkpoint `progress = 20 + i * 10`, then
`poll_operation`, accumulating the scene URIs. -/
def sceneLoop (env : PipelineEnv) (storageBase : String) :
    List String → Nat → VideoJob → List VideoJob → List CallEvent → List String →
    VideoJob × List VideoJob × List CallEvent × Except String (List String)
  | [], _, job, saves, trace, uris => (job, saves, trace, .ok uris)
  | p :: rest, i, job, saves, trace, uris =>
    let pfx := storageBase ++ "scene_" ++ toString (i + 1) ++ "/"
    match env.genBaseResult i with
    | .error e => (job, saves, trace ++ [.genBase i p pfx], .error e)
    | .ok _opName =>
      let job' := { job with progress := 20 + i * 10 }
      let saves' := saves ++ [job']
      match env.pollOpResult i with
      | .error e =>
        (job', saves', trace ++ [.genBase i p pfx, .pollOp i pfx], .error e)
      | .ok u =>
        sceneLoop env storageBase rest (i + 1) job' saves'
          (trace ++ [.genBase i p pfx, .pollOp i pfx]) (uris ++ [u])

/-- The list comprehension at tasks.py line 43:
`[hey.make_fetchable_url(u) for u in scene_uris]` — sequential, the
first failure propagates. -/
def mapFetchable (f : String → Except String String) :
    List String → Except String (List String)
  | [] => .ok []
  | u :: us =>
    match f u with
    | .error e => .error e
    | .ok v =>
      match mapFetchable f us with
      | .error e => .error e
      | .ok vs => .ok (v :: vs)

/-- tasks.py lines 43-91: everything after the scene URIs are collected —
URL resolution, the unconditional merge, and the HeyGen stage.  The
music block (lines 66-82) and the completion write (lines 83-91) sit
behind the `settings.BG_MUSIC_URLS` read at line 66; renderly/settings.py
defines no such attribute, so that read raises AttributeError and they
are unreachable in this repository (merge_service.py also defines no
`add_background_music_to_video`, so the guarded import at lines 68-70
could only ever bind it to `None`). -/
def overlayStage (env : PipelineEnv) (db0 : VideoJob) (job : VideoJob)
    (saves : List VideoJob) (trace : List CallEvent) (uris : List String) : BodyOut :=
  match mapFetchable env.makeFetchableUrl uris with
  | .error e => ⟨.error e, saves, trace⟩
  | .ok sceneUrls =>
    let targetGcs := "gs://" ++ env.gcsBucket ++ "/" ++ pyOrId db0.product_id db0.id
      ++ "/merged/final.mp4"
    match env.mergeResult sceneUrls targetGcs with
    | .error e => ⟨.error e, saves, trace ++ [.mergeCall sceneUrls targetGcs]⟩
    | .ok finalVeoUri =>
      let trace := trace ++ [.mergeCall sceneUrls targetGcs]
      match env.makeFetchableUrl finalVeoUri with
      | .error e => ⟨.error e, saves, trace⟩
      | .ok finalVeoUrl =>
        -- lines 47-51
        let job := { job with veo_video_gcs_uri := finalVeoUri,
                              veo_video_url := finalVeoUrl,
                              progress := 60, status := "processing_heygen" }
        let saves := saves ++ [job]
        match env.uploadAssetResult finalVeoUrl with
        | .error e => ⟨.error e, saves, trace ++ [.uploadAsset finalVeoUrl]⟩
        | .ok assetId =>
          let trace := trace ++ [.uploadAsset finalVeoUrl]
          -- lines 54-56
          let job := { job with heygen_asset_id := assetId, progress := 70 }
          let saves := saves ++ [job]
          match env.genAvatarResult with
          | .error e => ⟨.error e, saves, trace ++ [.genAvatar assetId]⟩
          | .ok videoId =>
            let trace := trace ++ [.genAvatar assetId]
            -- lines 59-61
            let job := { job with heygen_video_id := videoId, progress := 80 }
            let saves := saves ++ [job]
            match env.pollStatusResult with
            | .error e => ⟨.error e, saves, trace ++ [.pollStatus videoId]⟩
            | .ok _finalUrl =>
              -- line 64 closes the connection and line 65 re-fetches the
              -- row (equal to the last save).  Line 66 then evaluates
              -- `settings.BG_MUSIC_URLS`; renderly/settings.py defines no
              -- such attribute, so the Django settings object raises
              -- AttributeError here — `str(e)` is the message below —
              -- and lines 67-91 never run.
              ⟨.error "'Settings' object has no attribute 'BG_MUSIC_URLS'",
               saves, trace ++ [.pollStatus videoId]⟩

/-- The `try` body of `process_video_job` (tasks.py lines 16-91). -/
def runBody (env : PipelineEnv) (db0 : VideoJob) : BodyOut :=
  -- lines 17-19
  let job1 := { db0 with status := "processing_veo", progress := 10 }
  let saves := [job1]
  -- lines 22-26
  let prompts := db0.scenes_data.map (buildPrompt db0.product_title)
  let storageBase := "gs://" ++ env.gcsBucket ++ "/" ++ pyOrId db0.product_id db0.id
    ++ "/" ++ db0.created_date ++ "/"
  let scene1Pfx := storageBase ++ "scene_1/"
  match prompts with
  | [] =>
    -- `prompts[0]` raises IndexError on an empty scene list
    ⟨.error "list index out of range", saves, []⟩
  | p0 :: prest =>
    -- line 27
    match env.genBaseResult 0 with
    | .error e => ⟨.error e, saves, [.genBase 0 p0 scene1Pfx]⟩
    | .ok _ =>
      -- lines 28-29
      let job2 := { job1 with progress := 20 }
      let saves := saves ++ [job2]
      -- line 31
      match env.pollOpResult 0 with
      | .error e => ⟨.error e, saves, [.genBase 0 p0 scene1Pfx, .pollOp 0 scene1Pfx]⟩
      | .ok scene1Uri =>
        -- lines 32-33
        let job3 := { job2 with progress := 30 }
        let saves := saves ++ [job3]
        -- lines 34-42
        let out := sceneLoop env storageBase prest 1 job3 saves
          [.genBase 0 p0 scene1Pfx, .pollOp 0 scene1Pfx] [scene1Uri]
        match out.2.2.2 with
        | .error e => ⟨.error e, out.2.1, out.2.2.1⟩
        | .ok uris => overlayStage env db0 out.1 out.2.1 out.2.2.1 uris

/-- Models `process_video_job` (tasks.py lines 12-97): run the body; on any
exception, re-fetch the persisted row (= the last save, or the initial
row when nothing was saved) and persist only `status = 'failed'` and
`error_message` (lines 92-97). -/
def process_video_job (env : PipelineEnv) (db0 : VideoJob) : RunResult :=
  match runBody env db0 with
  | ⟨.ok job, saves, trace⟩ => ⟨job, saves, trace⟩
  | ⟨.error e, saves, trace⟩ =>
    let base := (saves.getLast?).getD db0
    let jf := { base with status := "failed", error_message := some e }
    ⟨jf, saves ++ [jf], trace⟩

/-! ## Vocabulary for the claims -/

def isGenBaseEv : CallEvent → Bool
  | .genBase .. => true
  | _ => false

def isExtendEv : CallEvent → Bool
  | .extendCall _ => true
  | _ => false

def isMergeEv : CallEvent → Bool
  | .mergeCall .. => true
  | _ => false

/-- The persisted progress values of a run, in write order. -/
def progressList (r : RunResult) : List Nat := r.saves.map (·.progress)

/-- The scene index a scene-stage event refers to. -/
def evSceneIdx : CallEvent → Nat
  | .genBase i _ _ => i
  | .pollOp i _ => i
  | .extendCall i => i
  | _ => 0

/-- Boolean non-decreasing check on a list of naturals. -/
def monoNat : List Nat → Bool
  | [] => true
  | [_] => true
  | a :: b :: t => a ≤ b && monoNat (b :: t)

/-- The progress checkpoints the `try` body of `process_video_job` can
write before the completion write, in write order, for `n` scenes:
10, 20, 30 (lines 18, 28, 32), then `20 + i * 10` for
`i in range(1, n)` (line 38), then 60, 70, 80 (lines 49, 55, 60). -/
def bodyCheckpoints (n : Nat) : List Nat :=
  [10, 20, 30] ++ (List.range' 1 (n - 1)).map (fun i => 20 + i * 10) ++ [60, 70, 80]

/-- A non-final persisted snapshot: the credit counter still holds the
incoming value and the status is one of the two in-flight states. -/
def midSave (db0 s : VideoJob) : Prop :=
  s.credits_used = db0.credits_used ∧
    (s.status = "processing_veo" ∨ s.status = "processing_heygen")

/-- The `generate_base_video` events the scene stage issues for the
prompts `ps` starting at scene index `i`, in scene order. -/
def genBaseEvents (sb : String) : List String → Nat → List CallEvent
  | [], _ => []
  | p :: rest, i =>
    .genBase i p (sb ++ "scene_" ++ toString (i + 1) ++ "/") :: genBaseEvents sb rest (i + 1)

/-- The interleaved `generate_base_video` / `poll_operation` events of
the extension loop for prompts `ps` starting at scene index `i`. -/
def loopEvents (sb : String) : List String → Nat → List CallEvent
  | [], _ => []
  | p :: rest, i =>
    .genBase i p (sb ++ "scene_" ++ toString (i + 1) ++ "/")
      :: .pollOp i (sb ++ "scene_" ++ toString (i + 1) ++ "/")
      :: loopEvents sb rest (i + 1)

/-! ## Concrete sample inputs (used by witnesses and counterexamples) -/

def sampleJob (n : Nat) : VideoJob where
  id := "J"
  product_id := some "P"
  product_title := "T"
  scenes_data := (List.range n).map (fun i => ⟨"v" ++ toString i, "c", "m", 8⟩)
  avatar_script := "s"
  avatar_id := "a"
  voice_id := "v"
  image_url := "img"
  avatar_scale := 1
  avatar_x := 0
  avatar_y := 0
  status := "pending"
  progress := 0
  error_message := none
  veo_video_gcs_uri := ""
  veo_video_url := ""
  heygen_video_id := ""
  heygen_asset_id := ""
  final_video_url := ""
  created_date := "2026-01-01"
  created_ts := 0
  completed_at := none
  processing_time_seconds := none
  credits_used := 0

def allOkEnv : PipelineEnv where
  gcsBucket := "B"
  genBaseResult := fun i => .ok ("op" ++ toString i)
  pollOpResult := fun i => .ok ("gs://B/s" ++ toString i)
  makeFetchableUrl := fun u => .ok ("f:" ++ u)
  mergeResult := fun _ _ => .ok "gs://B/P/merged/final.mp4"
  uploadAssetResult := fun _ => .ok "ASSET"
  genAvatarResult := .ok "VID"
  pollStatusResult := .ok "FIN"

/-- Models `allOkEnv` with the very first remote call failing. -/
def failFirstEnv : PipelineEnv :=
  { allOkEnv with genBaseResult := fun _ => .error "boom" }

/-- A persisted job row in the terminal `completed` state. -/
def terminalJob : VideoJob :=
  { sampleJob 1 with status := "completed", progress := 100, credits_used := 1,
                     completed_at := some 40, final_video_url := "F" }

/-- A poll response that is neither terminal nor fatal for
`poll_video_status`: the loop keeps polling on it. -/
def heyNonTerminal : HeyPollAttempt → Bool
  | .ok statusVal _ _ =>
    !(statusVal = some "completed") && !(statusVal = some "failed")
  | .readTimeout => true
  | .httpStatusError s _ => (s == 502) || (s == 503) || (s == 429)
  | .requestError _ => true

/-- A Veo poll environment on which no poll attempt and no storage probe
ever resolves: every status fetch fails (non-401) and every fallback
probe comes back empty. -/
def veoStuckEnv : VeoPollEnv where
  fetch := fun _ => .failedAll
  waitGcs := fun _ => none
  probe := fun _ => none
  finalWait := none
  finalProbe := none

/-- A merge environment in which every step succeeds. -/
def okMergeEnv : MergeEnv where
  downloadResult := fun _ => .ok ()
  ffmpegInstalled := true
  ffmpegRunResult := .ok ()
  uploadResult := .ok ()

/-! ### Lemmas about the string primitives -/

theorem strStartsWith_append (p t : List Char) : strStartsWith (p ++ t) p = true := by
  induction p with
  | nil => cases t <;> rfl
  | cons c cs ih => simp [strStartsWith, ih]

theorem stripAllGs_of_not_contains (t : List Char)
    (h : containsSub gsScheme t = false) : stripAllGs t = t := by
  induction t using stripAllGs.induct with
  | case1 rest _ =>
    exfalso
    have : containsSub gsScheme ('g' :: 's' :: ':' :: '/' :: '/' :: rest) = true := by
      simp [containsSub, strStartsWith, gsScheme]
    simp [this] at h
  | case2 c cs hne ih =>
    rw [containsSub, Bool.or_eq_false_iff] at h
    rw [stripAllGs.eq_2 c cs hne, ih h.2]
  | case3 => rfl

theorem stripAllGs_gs_append (t : List Char) :
    stripAllGs (gsScheme ++ t) = stripAllGs t := rfl

/-- Re-joining the two halves of `pySplitOnce` recovers the input. -/
theorem pySplitOnce_rejoin (sep : Char) (t : List Char) :
    (match pySplitOnce sep t with
     | (p0, none) => p0
     | (p0, some p1) => p0 ++ sep :: p1) = t := by
  induction t with
  | nil => rfl
  | cons c cs ih =>
    rw [pySplitOnce]
    by_cases hc : c == sep
    · simp only [if_pos hc]
      simp only [beq_iff_eq] at hc
      rw [hc]
      rfl
    · simp only [if_neg hc]
      revert ih
      cases pySplitOnce sep cs with
      | mk a b =>
        cases b with
        | none => intro ih; simpa using ih
        | some p1 => intro ih; simpa using ih

/-- If `sep` does not occur in `t`, `pySplitOnce` returns no second half. -/
theorem pySplitOnce_none (sep : Char) (t : List Char) (h : sep ∉ t) :
    pySplitOnce sep t = (t, none) := by
  induction t with
  | nil => rfl
  | cons c cs ih =>
    have hc : (c == sep) = false := by
      simp only [beq_eq_false_iff_ne]
      intro hcs; exact h (hcs ▸ List.mem_cons_self c cs)
    rw [pySplitOnce, ih (fun hm => h (List.mem_cons_of_mem c hm))]
    simp [hc]

/-! ## Claim C10 — `gcs_to_public_url` -/

/-- C10, counterexample.  The claim asserts that for every input
`"gs://" + bucket + "/" + key` with neither `bucket` nor `key`
containing `"gs://"`, the result is exactly
`"https://storage.googleapis.com/" + bucket + "/" + key`.  With
`bucket = "xgs:"` and `key = "/y"` the hypotheses hold, yet the
occurrence of `"gs://"` straddling the bucket/key boundary is also
deleted by Python's `replace`, and the function returns
`"https://storage.googleapis.com/xy"` instead. -/
theorem C10_counterexample :
    containsSub gsScheme "xgs:".data = false ∧
    containsSub gsScheme "/y".data = false ∧
    gcs_to_public_url (gsScheme ++ "xgs:".data ++ '/' :: "/y".data)
        ≠ "https://storage.googleapis.com/".data ++ "xgs:".data ++ '/' :: "/y".data ∧
    gcs_to_public_url (gsScheme ++ "xgs:".data ++ '/' :: "/y".data)
        = "https://storage.googleapis.com/xy".data := by
  refine ⟨by decide, by decide, by decide, by decide⟩

/-- C10 (amended): as the claim, but the no-`"gs://"` condition must
hold for the joined remainder `bucket + "/" + key` (ruling out an
occurrence straddling the bucket/key boundary), not merely for `bucket`
and `key` separately; the no-separator clause additionally needs
`bucket` itself free of `"gs://"`.  Then `gcs_to_public_url` returns
exactly the public URL form the claim states. -/
theorem C10_gcs_to_public_url (bucket key : List Char)
    (h : containsSub gsScheme (bucket ++ '/' :: key) = false)
    (hb : containsSub gsScheme bucket = false)
    (hs : '/' ∉ bucket) :
    gcs_to_public_url (gsScheme ++ bucket ++ '/' :: key)
        = "https://storage.googleapis.com/".data ++ bucket ++ '/' :: key ∧
    gcs_to_public_url (gsScheme ++ bucket)
        = "https://storage.googleapis.com/".data ++ bucket := by
  constructor
  · show gcs_to_public_url (gsScheme ++ (bucket ++ '/' :: key)) = _
    unfold gcs_to_public_url
    rw [stripAllGs_gs_append, stripAllGs_of_not_contains _ h]
    have hr := pySplitOnce_rejoin '/' (bucket ++ '/' :: key)
    cases hsp : pySplitOnce '/' (bucket ++ '/' :: key) with
    | mk p0 p1 =>
      cases p1 with
      | none =>
        rw [hsp] at hr
        simp only at hr ⊢
        rw [hr, List.append_assoc]
      | some p1' =>
        rw [hsp] at hr
        simp only at hr ⊢
        rw [List.append_assoc, hr, List.append_assoc]
  · unfold gcs_to_public_url
    rw [stripAllGs_gs_append, stripAllGs_of_not_contains _ hb,
      pySplitOnce_none '/' bucket hs]

/-- C10 witness: the amended theorem applied at `bucket = "b"`,
`key = "k"`. -/
theorem C10_witness :
    containsSub gsScheme ("b".data ++ '/' :: "k".data) = false ∧
    gcs_to_public_url (gsScheme ++ "b".data ++ '/' :: "k".data)
        = "https://storage.googleapis.com/".data ++ "b".data ++ '/' :: "k".data := by
  refine ⟨by decide, ?_⟩
  exact (C10_gcs_to_public_url "b".data "k".data (by decide) (by decide) (by decide)).1

/-! ## Claim C5 — `generate_avatar_video` retry policy -/

/-- C5, counterexample.  The claim asserts that exhausting all retry
attempts raises an error surfacing the last observed error's status and
detail.  When all three attempts fail with the transient status 502,
the loop never records them in `last_error` (only the non-transient
`break` path and network errors do), so exhaustion raises the generic
"unknown error" message that mentions neither the status nor the body
of the last observed failure. -/
theorem C5_counterexample :
    generate_avatar_video [.httpStatusError 502 "bad gateway",
        .httpStatusError 502 "bad gateway", .httpStatusError 502 "bad gateway"]
      = (.error "HeyGen generate failed with unknown error", [2, 4, 6]) ∧
    containsSub "502".data "HeyGen generate failed with unknown error".data = false ∧
    containsSub "bad gateway".data "HeyGen generate failed with unknown error".data
      = false := by
  refine ⟨rfl, by decide, by decide⟩

/-- C5 (amended): `generate_avatar_video` makes up to 3 attempts with
linear backoff (`2 * (attempt + 1)` seconds, i.e. 2 s, 4 s, 6 s) on
status 502/429 and on network-level errors, and aborts immediately on
any other failure status with an error carrying that status and body.
On exhaustion it surfaces the last *recorded* error — network errors
are recorded, but transient 502/429 responses are not, so exhaustion
after only transient statuses raises a generic "unknown error" (and a
network error recorded earlier is surfaced even if transient statuses
were observed after it). -/
theorem C5_generate_avatar_video
    (s s1 s2 s3 : Nat) (body b1 b2 b3 m m1 m2 m3 v : String) (rest : List GenAttempt)
    (hs : ¬(s = 502 ∨ s = 429))
    (h1 : s1 = 502 ∨ s1 = 429) (h2 : s2 = 502 ∨ s2 = 429) (h3 : s3 = 502 ∨ s3 = 429) :
    generate_avatar_video (.ok (some v) :: rest) = (.ok v, []) ∧
    generate_avatar_video (.httpStatusError s body :: rest)
      = (.error ("HeyGen generate failed: " ++ toString s ++ " " ++ body), []) ∧
    generate_avatar_video
        [.httpStatusError s1 b1, .httpStatusError s2 b2, .httpStatusError s3 b3]
      = (.error "HeyGen generate failed with unknown error", [2, 4, 6]) ∧
    generate_avatar_video [.requestError m1, .requestError m2, .requestError m3]
      = (.error ("HeyGen generate failed: " ++ m3), [2, 4, 6]) ∧
    generate_avatar_video [.requestError m, .httpStatusError s2 b2, .httpStatusError s3 b3]
      = (.error ("HeyGen generate failed: " ++ m), [2, 4, 6]) := by
  refine ⟨rfl, ?_, ?_, rfl, ?_⟩
  · simp [generate_avatar_video, genAvatarLoop, if_neg hs]
  · rcases h1 with rfl | rfl <;> rcases h2 with rfl | rfl <;> rcases h3 with rfl | rfl <;> rfl
  · rcases h2 with rfl | rfl <;> rcases h3 with rfl | rfl <;> rfl

/-- C5 witness: the amended theorem applied at concrete statuses and
messages. -/
theorem C5_witness :
    ¬((500 : Nat) = 502 ∨ (500 : Nat) = 429) ∧
    generate_avatar_video [.httpStatusError 500 "oops"]
      = (.error ("HeyGen generate failed: " ++ toString (500 : Nat) ++ " " ++ "oops"), []) := by
  refine ⟨by decide, ?_⟩
  exact (C5_generate_avatar_video 500 502 502 502 "oops" "b" "b" "b" "m" "m" "m" "m" "v" []
    (by decide) (Or.inl rfl) (Or.inl rfl) (Or.inl rfl)).2.1

/-! ## Claim C6 — `upload_video_asset` response classification -/

/-- C6 (confirmed): `upload_video_asset` classifies by status code.  On
200 the asset id is extracted trying, in order, the direct keys
(`asset_id`, `video_asset_id`), the nested `data` object (`asset_id`,
`video_asset_id`, `id`), and the nested `asset` object inside `data`
(`asset_id`, `id`); a 200 with no (truthy) id raises the missing-id
remote failure carrying the response data.  401 raises the
authentication error, 400 the validation failure carrying the remote
response text, and any other status the remote failure carrying the
response body. -/
theorem C6_upload_video_asset (x y t : String) (data : JVal) (s : Nat)
    (hx : x ≠ "") (hs200 : s ≠ 200) (hs401 : s ≠ 401) (hs400 : s ≠ 400) :
    upload_video_asset_classify 200 (.jobj [("asset_id", .jstr x)]) t
      = .ok (.jstr x) ∧
    upload_video_asset_classify 200 (.jobj [("video_asset_id", .jstr x)]) t
      = .ok (.jstr x) ∧
    upload_video_asset_classify 200 (.jobj [("data", .jobj [("asset_id", .jstr x)])]) t
      = .ok (.jstr x) ∧
    upload_video_asset_classify 200
        (.jobj [("data", .jobj [("video_asset_id", .jstr x)])]) t
      = .ok (.jstr x) ∧
    upload_video_asset_classify 200 (.jobj [("data", .jobj [("id", .jstr x)])]) t
      = .ok (.jstr x) ∧
    upload_video_asset_classify 200
        (.jobj [("data", .jobj [("asset", .jobj [("asset_id", .jstr x)])])]) t
      = .ok (.jstr x) ∧
    upload_video_asset_classify 200
        (.jobj [("data", .jobj [("asset", .jobj [("id", .jstr x)])])]) t
      = .ok (.jstr x) ∧
    upload_video_asset_classify 200
        (.jobj [("video_asset_id", .jstr x), ("data", .jobj [("id", .jstr y)])]) t
      = .ok (.jstr x) ∧
    upload_video_asset_classify 200
        (.jobj [("data", .jobj [("id", .jstr x), ("asset", .jobj [("id", .jstr y)])])]) t
      = .ok (.jstr x) ∧
    upload_video_asset_classify 200 (.jobj []) t = .remoteNoId (.jobj []) ∧
    upload_video_asset_classify 401 data t
      = .authError
          ("❌ Authentication failed (401). Please check your HEYGEN_API_KEY. Response: "
            ++ t) ∧
    upload_video_asset_classify 400 data t
      = .validationFailure ("❌ Bad request (400). Response: " ++ t) ∧
    upload_video_asset_classify s data t
      = .remoteFailure ("❌ Upload failed with status " ++ toString s ++ ": " ++ t) := by
  refine ⟨?_, ?_, ?_, ?_, ?_, ?_, ?_, ?_, ?_, rfl, rfl, rfl, ?_⟩
  all_goals
    simp [upload_video_asset_classify, extract_asset_id, jget, jPyOr, jTruthy,
      hx, hs200, hs401, hs400]

/-- C6 witness: the classification theorem applied at concrete values. -/
theorem C6_witness :
    ("A" : String) ≠ "" ∧ (503 : Nat) ≠ 200 ∧ (503 : Nat) ≠ 401 ∧ (503 : Nat) ≠ 400 ∧
    upload_video_asset_classify 200 (.jobj [("asset_id", .jstr "A")]) "R"
      = .ok (.jstr "A") := by
  refine ⟨by decide, by decide, by decide, by decide, ?_⟩
  exact (C6_upload_video_asset "A" "B" "R" .jnull 503
    (by decide) (by decide) (by decide) (by decide)).1

/-! ## Claim C8 — `merge_scene_urls_to_gcs` temp-file accounting -/

theorem downloadAll_ok (env : MergeEnv) (hd : ∀ i, env.downloadResult i = .ok ()) :
    ∀ (urls : List String) (i : Nat) (fs : List TempFile),
      downloadAll env urls i fs
        = (fs ++ (List.range' i urls.length).map .download,
           .ok ((List.range' i urls.length).map .download)) := by
  intro urls
  induction urls with
  | nil => intro i fs; simp [downloadAll]
  | cons u us ih =>
    intro i fs
    simp only [downloadAll, download_to_temp, hd i, ih (i + 1), List.length_cons,
      List.range'_succ, List.map_cons, List.append_assoc, List.cons_append,
      List.nil_append]

theorem downloadAll_err (env : MergeEnv) (k : Nat) (e : String)
    (hd : ∀ i, i < k → env.downloadResult i = .ok ())
    (he : env.downloadResult k = .error e) :
    ∀ (urls : List String) (i : Nat) (fs : List TempFile), i ≤ k → k < i + urls.length →
      downloadAll env urls i fs
        = (fs ++ (List.range' i (k - i + 1)).map .download, .error e) := by
  intro urls
  induction urls with
  | nil => intro i fs _ hlt; simp at hlt; omega
  | cons u us ih =>
    intro i fs hik hlt
    by_cases hik' : i = k
    · subst hik'
      simp [downloadAll, download_to_temp, he, List.range'_succ]
    · have hik2 : i < k := lt_of_le_of_ne hik hik'
      have : (List.range' i (k - i + 1)).map TempFile.download
          = TempFile.download i :: (List.range' (i + 1) (k - (i + 1) + 1)).map .download := by
        have hni : k - i + 1 = (k - (i + 1) + 1) + 1 := by omega
        rw [hni, List.range'_succ]
        simp
      simp only [downloadAll, download_to_temp, hd i hik2, this,
        ih (i + 1) (fs ++ [.download i]) (by omega) (by simp at hlt ⊢; omega)]
      simp

theorem foldl_erase_append (ds extra : List TempFile) :
    ds.foldl (fun acc p => acc.erase p) (ds ++ extra) = extra := by
  induction ds with
  | nil => rfl
  | cons d rest ih =>
    simp only [List.foldl_cons, List.cons_append, List.erase_cons_head]
    exact ih

/-- C8, counterexample.  The claim asserts that on every exit path all
temporary files created by the merge have been removed by the time it
returns.  On a fully successful run over two clips the merged-output
temp file created at merge_service.py line 28 is never removed — the
cleanup at lines 36-41 removes only the list file and the downloaded
clips. -/
theorem C8_counterexample :
    (merge_scene_urls_to_gcs okMergeEnv ["a", "b"] "gs://B/m.mp4").result
      = .ok "gs://B/m.mp4" ∧
    (merge_scene_urls_to_gcs okMergeEnv ["a", "b"] "gs://B/m.mp4").leftover
      = [.output] ∧
    (merge_scene_urls_to_gcs okMergeEnv ["a", "b"] "gs://B/m.mp4").leftover ≠ [] := by
  refine ⟨rfl, rfl, by decide⟩

/-- C8 (amended): `merge` downloads each clip to temporary storage,
concatenates them in exactly the input order of `clip_urls`, and
uploads the result to the target location; but temporary storage is
only partially released: the downloaded clips and the ffmpeg list file
are removed exactly when the concatenation step succeeds, and the
merged-output temp file is never removed on any path (including full
success).  Failures before the concatenation completes (a failed
download, missing ffmpeg, a failed ffmpeg run) remove nothing. -/
theorem C8_merge_scene_urls_to_gcs (env : MergeEnv) (urls : List String)
    (target : String) (k : Nat) (e : String) :
    ((∀ i, env.downloadResult i = .ok ()) → env.ffmpegInstalled = true →
      env.ffmpegRunResult = .ok () → env.uploadResult = .ok () →
      merge_scene_urls_to_gcs env urls target
        = ⟨.ok target, [.output], some ((List.range urls.length).map .download)⟩) ∧
    ((∀ i, i < k → env.downloadResult i = .ok ()) → env.downloadResult k = .error e →
      k < urls.length →
      merge_scene_urls_to_gcs env urls target
        = ⟨.error e, (List.range (k + 1)).map .download, none⟩) ∧
    ((∀ i, env.downloadResult i = .ok ()) → env.ffmpegInstalled = false →
      merge_scene_urls_to_gcs env urls target
        = ⟨.error "FFmpeg is not installed or not in PATH. Install ffmpeg to enable scene merging.",
           (List.range urls.length).map .download, none⟩) ∧
    ((∀ i, env.downloadResult i = .ok ()) → env.ffmpegInstalled = true →
      env.ffmpegRunResult = .error e →
      merge_scene_urls_to_gcs env urls target
        = ⟨.error e, (List.range urls.length).map .download ++ [.listFile, .output],
           none⟩) ∧
    ((∀ i, env.downloadResult i = .ok ()) → env.ffmpegInstalled = true →
      env.ffmpegRunResult = .ok () → env.uploadResult = .error e →
      merge_scene_urls_to_gcs env urls target
        = ⟨.error e, [.output], some ((List.range urls.length).map .download)⟩) := by
  have herase : ∀ ds : List TempFile, (∀ d ∈ ds, d ≠ TempFile.listFile) →
      (ds.foldl (fun acc p => acc.erase p)
        (((ds ++ [TempFile.listFile]) ++ [TempFile.output]).erase TempFile.listFile))
      = [TempFile.output] := by
    intro ds hds
    have h1 : ((ds ++ [TempFile.listFile]) ++ [TempFile.output]).erase TempFile.listFile
        = ds ++ [TempFile.output] := by
      rw [List.append_assoc, List.erase_append_right _
        (by intro hmem; exact hds _ hmem rfl)]
      simp
    rw [h1, foldl_erase_append]
  have hdsafe : ∀ n : Nat, ∀ d ∈ (List.range' 0 n).map TempFile.download,
      d ≠ TempFile.listFile := by
    intro n d hd
    simp only [List.mem_map] at hd
    obtain ⟨i, _, rfl⟩ := hd
    intro hcontra
    cases hcontra
  refine ⟨?_, ?_, ?_, ?_, ?_⟩
  · intro hdl hff hrun hup
    simp only [merge_scene_urls_to_gcs, downloadAll_ok env hdl urls 0 [],
      concat_with_ffmpeg, hff, Bool.not_true, Bool.false_eq_true, if_neg,
      reduceIte, hrun, upload_to_gcs, hup, List.nil_append]
    rw [herase _ (hdsafe urls.length), List.range_eq_range']
  · intro hdl he hk
    simp only [merge_scene_urls_to_gcs,
      downloadAll_err env k e hdl he urls 0 [] (Nat.zero_le k) (by omega),
      List.nil_append]
    rw [List.range_eq_range']
    simp
  · intro hdl hff
    simp only [merge_scene_urls_to_gcs, downloadAll_ok env hdl urls 0 [],
      concat_with_ffmpeg, hff, List.nil_append]
    rw [List.range_eq_range']
    simp
  · intro hdl hff hrun
    simp only [merge_scene_urls_to_gcs, downloadAll_ok env hdl urls 0 [],
      concat_with_ffmpeg, hff, hrun, List.nil_append]
    rw [List.range_eq_range']
    simp
  · intro hdl hff hrun hup
    simp only [merge_scene_urls_to_gcs, downloadAll_ok env hdl urls 0 [],
      concat_with_ffmpeg, hff, hrun, upload_to_gcs, hup, List.nil_append]
    simp only [Bool.not_true, Bool.false_eq_true, reduceIte]
    rw [herase _ (hdsafe urls.length), List.range_eq_range']

/-- C8 witness: the amended theorem's success clause at a concrete
environment and input. -/
theorem C8_witness :
    merge_scene_urls_to_gcs okMergeEnv ["a", "b", "c"] "gs://B/m.mp4"
      = ⟨.ok "gs://B/m.mp4", [.output],
         some ((List.range 3).map .download)⟩ := by
  exact (C8_merge_scene_urls_to_gcs okMergeEnv ["a", "b", "c"] "gs://B/m.mp4" 0 "e").1
    (fun _ => rfl) rfl rfl rfl

/-! ## Claim C4 — timeout messages of the two poll loops -/

theorem strStartsWith_extend (pat : List Char) :
    ∀ (s z : List Char), strStartsWith s pat = true → strStartsWith (s ++ z) pat = true := by
  induction pat with
  | nil => intro s z _; cases s ++ z <;> rfl
  | cons p ps ih =>
    intro s z h
    cases s with
    | nil => simp [strStartsWith] at h
    | cons c cs =>
      simp only [strStartsWith, Bool.and_eq_true] at h
      simp only [List.cons_append, strStartsWith, Bool.and_eq_true, h.1, true_and]
      exact ih cs z h.2

theorem containsSub_append_left (pat : List Char) :
    ∀ (s z : List Char), containsSub pat s = true → containsSub pat (s ++ z) = true := by
  intro s
  induction s with
  | nil =>
    intro z h
    simp only [containsSub] at h
    cases z with
    | nil => exact h
    | cons c cs =>
      have : pat = [] := by cases pat with
        | nil => rfl
        | cons p ps => simp [strStartsWith] at h
      subst this
      simp [containsSub, strStartsWith]
  | cons c cs ih =>
    intro z h
    rw [containsSub, Bool.or_eq_true] at h
    rw [List.cons_append, containsSub, Bool.or_eq_true]
    rcases h with h | h
    · exact Or.inl (by rw [← List.cons_append]; exact strStartsWith_extend pat _ z h)
    · exact Or.inr (ih z h)

theorem containsSub_append_right (pat : List Char) :
    ∀ (x y : List Char), containsSub pat y = true → containsSub pat (x ++ y) = true := by
  intro x
  induction x with
  | nil => intro y h; exact h
  | cons c cs ih =>
    intro y h
    rw [List.cons_append, containsSub, Bool.or_eq_true]
    exact Or.inr (ih y h)

theorem heygenPollLoop_exhaust (env : Nat → HeyPollAttempt)
    (maxRetries interval : Nat) (videoId : String)
    (h : ∀ a, heyNonTerminal (env a) = true) :
    ∀ (n retry : Nat),
      heygenPollLoop env maxRetries interval videoId retry n
        = .error (.timeout (heygenPollTimeoutMsg maxRetries interval videoId)) := by
  intro n
  induction n with
  | zero => intro retry; rfl
  | succ m ih =>
    intro retry
    have ha := h retry
    rw [heygenPollLoop]
    cases henv : env retry with
    | ok sv url einfo =>
      rw [henv] at ha
      simp only [heyNonTerminal, Bool.and_eq_true, Bool.not_eq_true',
        decide_eq_false_iff_not] at ha
      simp only [ha.1, ha.2, if_false, ite_false]
      exact ih (retry + 1)
    | readTimeout => exact ih (retry + 1)
    | httpStatusError s body =>
      rw [henv] at ha
      simp only [heyNonTerminal, Bool.or_eq_true, beq_iff_eq] at ha
      have ha' : s = 502 ∨ s = 503 ∨ s = 429 := by tauto
      simp only [ha', if_true, ite_true]
      exact ih (retry + 1)
    | requestError m' => exact ih (retry + 1)

theorem veoPollLoop_exhaust (env : VeoPollEnv)
    (hf : ∀ a, env.fetch a = .failedAll) (hp : ∀ a, env.probe a = none)
    (hw : env.finalWait = none) (hfp : env.finalProbe = none) :
    ∀ (n attempt : Nat),
      veoPollLoop env true attempt n = .error (.timeout veoPollTimeoutMsg) := by
  intro n
  induction n with
  | zero =>
    intro attempt
    simp [veoPollLoop, veoPollFinal, hw, hfp]
  | succ m ih =>
    intro attempt
    rw [veoPollLoop, hf attempt]
    simp only [if_pos rfl, hp attempt]
    exact ih (attempt + 1)

/-- C4, counterexample.  The claim asserts that the Timeout failure of
*both* poll loops carries a message indicating the remote operation may
still be running.  Exhausting `poll_operation`'s budget (here 2
attempts, every fetch failing and every storage probe empty) raises
`TimeoutError("Veo operation polling timed out")` — a message that
contains no still-running indication (neither "still", "running" nor
"processing"), unlike the overlay poll's message. -/
theorem C4_counterexample :
    poll_operation veoStuckEnv true 2 = .error (.timeout veoPollTimeoutMsg) ∧
    containsSub "still".data veoPollTimeoutMsg.data = false ∧
    containsSub "running".data veoPollTimeoutMsg.data = false ∧
    containsSub "processing".data veoPollTimeoutMsg.data = false := by
  refine ⟨rfl, by decide, by decide, by decide⟩

/-- C4 (amended): exhausting a poll budget without a terminal status is
a Timeout failure in both services, but only the overlay poll's message
indicates the operation may still be running ("Video might still be
processing on HeyGen"); the scene-generation poll raises the fixed
message "Veo operation polling timed out", which carries no such
indication. -/
theorem C4_poll_timeout_messages (envV : VeoPollEnv) (envH : Nat → HeyPollAttempt)
    (mrV mrH iv : Nat) (vid : String)
    (hf : ∀ a, envV.fetch a = .failedAll) (hp : ∀ a, envV.probe a = none)
    (hw : envV.finalWait = none) (hfp : envV.finalProbe = none)
    (hh : ∀ a, heyNonTerminal (envH a) = true) :
    poll_operation envV true mrV = .error (.timeout veoPollTimeoutMsg) ∧
    containsSub "still".data veoPollTimeoutMsg.data = false ∧
    poll_video_status envH vid mrH iv
      = .error (.timeout (heygenPollTimeoutMsg mrH iv vid)) ∧
    containsSub "still be processing".data (heygenPollTimeoutMsg mrH iv vid).data
      = true := by
  refine ⟨veoPollLoop_exhaust envV hf hp hw hfp mrV 0, by decide,
    heygenPollLoop_exhaust envH mrH iv vid hh mrH 0, ?_⟩
  show containsSub "still be processing".data
    ((((((("⏱️  Polling timed out after " ++ toString (mrH * iv)) ++ "s (~")
      ++ fmtMinutesTenths (mrH * iv)) ++ " minutes). ")
      ++ "Video might still be processing on HeyGen. ")
      ++ "Check your HeyGen dashboard or try fetching status again with video_id: ")
      ++ vid).data = true
  simp only [String.data_append]
  rw [List.append_assoc, List.append_assoc]
  apply containsSub_append_right
  apply containsSub_append_left
  decide

/-- C4 witness: both exhaustion characterizations at a concrete stuck
environment, budget 1 and interval 10. -/
theorem C4_witness :
    poll_operation veoStuckEnv true 1 = .error (.timeout veoPollTimeoutMsg) ∧
    poll_video_status (fun _ => .readTimeout) "V" 1 10
      = .error (.timeout (heygenPollTimeoutMsg 1 10 "V")) := by
  have h := C4_poll_timeout_messages veoStuckEnv (fun _ => .readTimeout) 1 1 10 "V"
    (fun _ => rfl) (fun _ => rfl) rfl rfl (fun _ => rfl)
  exact ⟨h.1, h.2.2.1⟩

/-! ## Structural lemmas about the pipeline -/

/-- General shape of a `sceneLoop` run: some number `m` of completed
progress checkpoints (one per iteration that reached the save at
tasks.py line 39), each only changing `progress`; the loop job only
ever differs from the entry job in `progress`; a fully `ok` result
means every iteration ran; and the appended trace contains no extend
and no merge events. -/
theorem sceneLoop_spec (env : PipelineEnv) (sb : String) :
    ∀ (rest : List String) (i : Nat) (job : VideoJob) (saves : List VideoJob)
      (trace : List CallEvent) (uris : List String),
      ∃ m, m ≤ rest.length ∧ ∃ pv,
        (sceneLoop env sb rest i job saves trace uris).2.1
          = saves ++ (List.range' i m).map (fun k => { job with progress := 20 + k * 10 }) ∧
        (sceneLoop env sb rest i job saves trace uris).1 = { job with progress := pv } ∧
        (∀ us, (sceneLoop env sb rest i job saves trace uris).2.2.2 = .ok us →
          m = rest.length) ∧
        ∃ tr, (sceneLoop env sb rest i job saves trace uris).2.2.1 = trace ++ tr ∧
          tr.filter isExtendEv = [] ∧ tr.filter isMergeEv = [] := by
  intro rest
  induction rest with
  | nil =>
    intro i job saves trace uris
    exact ⟨0, Nat.le_refl 0, job.progress, by simp [sceneLoop], rfl,
      fun _ _ => rfl, [], by simp [sceneLoop], rfl, rfl⟩
  | cons p rest ih =>
    intro i job saves trace uris
    rw [sceneLoop]
    cases hg : env.genBaseResult i with
    | error e =>
      exact ⟨0, Nat.zero_le _, job.progress, by simp, rfl, (by intro us h; cases h),
        [.genBase i p (sb ++ "scene_" ++ toString (i + 1) ++ "/")], rfl, rfl, rfl⟩
    | ok opName =>
      cases hp : env.pollOpResult i with
      | error e =>
        refine ⟨1, by simp, 20 + i * 10, ?_, rfl, (by intro us h; cases h),
          [.genBase i p (sb ++ "scene_" ++ toString (i + 1) ++ "/"),
           .pollOp i (sb ++ "scene_" ++ toString (i + 1) ++ "/")], ?_, rfl, rfl⟩
        · simp [List.range'_one]
        · simp
      | ok u =>
        obtain ⟨m, hm, pv, hsaves, hjob, hok, tr, htr, hfe, hfm⟩ :=
          ih (i + 1) { job with progress := 20 + i * 10 }
            (saves ++ [{ job with progress := 20 + i * 10 }])
            (trace ++ [.genBase i p (sb ++ "scene_" ++ toString (i + 1) ++ "/"),
              .pollOp i (sb ++ "scene_" ++ toString (i + 1) ++ "/")])
            (uris ++ [u])
        refine ⟨m + 1, by simpa using Nat.succ_le_succ hm, pv, ?_, ?_, ?_, ?_⟩
        · rw [hsaves, List.range'_succ]
          simp
        · rw [hjob]
        · intro us hres
          rw [hok us hres]
          simp
        · exact ⟨[.genBase i p (sb ++ "scene_" ++ toString (i + 1) ++ "/"),
            .pollOp i (sb ++ "scene_" ++ toString (i + 1) ++ "/")] ++ tr,
            by rw [htr, List.append_assoc],
            by simpa [isExtendEv] using hfe, by simpa [isMergeEv] using hfm⟩

/-- General shape of an `overlayStage` run: it appends zero or more of
the checkpoint saves 60/70/80 (status `processing_heygen`, credit
counter untouched), and on success additionally the completion save
(status `completed`, progress 100, one credit) — a branch that is
unreachable in this repository, since `overlayStage` never returns
`.ok`; the appended trace has no extend and no `generate_base_video`
events and exactly as many merge events as merge invocations (one, when
URL resolution succeeded). -/
theorem overlayStage_spec (env : PipelineEnv) (db0 : VideoJob) :
    ∀ (job : VideoJob) (saves : List VideoJob) (trace : List CallEvent)
      (uris : List String),
      ∃ zs tr,
        (overlayStage env db0 job saves trace uris).saves = saves ++ zs ∧
        (overlayStage env db0 job saves trace uris).trace = trace ++ tr ∧
        tr.filter isExtendEv = [] ∧ tr.filter isGenBaseEv = [] ∧
        ((∃ e, (overlayStage env db0 job saves trace uris).result = .error e) →
          (zs.map (·.progress) = [] ∨ zs.map (·.progress) = [60] ∨
            zs.map (·.progress) = [60, 70] ∨ zs.map (·.progress) = [60, 70, 80]) ∧
          ∀ s ∈ zs, s.credits_used = job.credits_used ∧ s.status = "processing_heygen") ∧
        (∀ j, (overlayStage env db0 job saves trace uris).result = .ok j →
          ∃ front, zs = front ++ [j] ∧
            front.map (·.progress) = [60, 70, 80] ∧
            (∀ s ∈ front, s.credits_used = job.credits_used ∧
              s.status = "processing_heygen") ∧
            j.status = "completed" ∧ j.progress = 100 ∧ j.credits_used = 1) := by
  intro job saves trace uris
  rw [overlayStage]
  cases hmf : mapFetchable env.makeFetchableUrl uris with
  | error e =>
    exact ⟨[], [], by simp, by simp, rfl, rfl,
      fun _ => ⟨Or.inl rfl, by simp⟩, fun j h => by cases h⟩
  | ok sceneUrls =>
    simp only
    cases hmg : env.mergeResult sceneUrls ("gs://" ++ env.gcsBucket ++ "/"
        ++ pyOrId db0.product_id db0.id ++ "/merged/final.mp4") with
    | error e =>
      exact ⟨[], [.mergeCall sceneUrls ("gs://" ++ env.gcsBucket ++ "/"
          ++ pyOrId db0.product_id db0.id ++ "/merged/final.mp4")],
        by simp, rfl, rfl, rfl,
        fun _ => ⟨Or.inl rfl, by simp⟩, fun j h => by cases h⟩
    | ok finalVeoUri =>
      simp only
      cases hmu : env.makeFetchableUrl finalVeoUri with
      | error e =>
        exact ⟨[], [.mergeCall sceneUrls ("gs://" ++ env.gcsBucket ++ "/"
            ++ pyOrId db0.product_id db0.id ++ "/merged/final.mp4")],
          by simp, rfl, rfl, rfl,
          fun _ => ⟨Or.inl rfl, by simp⟩, fun j h => by cases h⟩
      | ok finalVeoUrl =>
        simp only
        cases hup : env.uploadAssetResult finalVeoUrl with
        | error e =>
          refine ⟨[{ job with
                     veo_video_gcs_uri := finalVeoUri,
                     veo_video_url := finalVeoUrl,
                     progress := 60,
                     status := "processing_heygen" }],
            [.mergeCall sceneUrls ("gs://" ++ env.gcsBucket ++ "/"
                ++ pyOrId db0.product_id db0.id ++ "/merged/final.mp4"),
             .uploadAsset finalVeoUrl],
            by simp, by simp, rfl, rfl,
            fun _ => ⟨Or.inr (Or.inl rfl), ?_⟩, fun j h => by cases h⟩
          intro s hs
          simp only [List.mem_singleton] at hs
          rcases hs with rfl
          exact ⟨rfl, rfl⟩
        | ok assetId =>
          simp only
          cases hga : env.genAvatarResult with
          | error e =>
            refine ⟨[{ job with
                       veo_video_gcs_uri := finalVeoUri,
                       veo_video_url := finalVeoUrl,
                       progress := 60,
                       status := "processing_heygen" },
                     { job with
                       veo_video_gcs_uri := finalVeoUri,
                       veo_video_url := finalVeoUrl,
                       heygen_asset_id := assetId,
                       progress := 70,
                       status := "processing_heygen" }],
              [.mergeCall sceneUrls ("gs://" ++ env.gcsBucket ++ "/"
                  ++ pyOrId db0.product_id db0.id ++ "/merged/final.mp4"),
               .uploadAsset finalVeoUrl, .genAvatar assetId],
              by simp, by simp, rfl, rfl,
              fun _ => ⟨Or.inr (Or.inr (Or.inl rfl)), ?_⟩, fun j h => by cases h⟩
            intro s hs
            simp only [List.mem_cons, List.mem_singleton, List.not_mem_nil,
              or_false] at hs
            rcases hs with rfl | rfl <;> exact ⟨rfl, rfl⟩
          | ok videoId =>
            simp only
            cases hps : env.pollStatusResult with
            | error e =>
              refine ⟨[{ job with
                         veo_video_gcs_uri := finalVeoUri,
                         veo_video_url := finalVeoUrl,
                         progress := 60,
                         status := "processing_heygen" },
                       { job with
                         veo_video_gcs_uri := finalVeoUri,
                         veo_video_url := finalVeoUrl,
                         heygen_asset_id := assetId,
                         progress := 70,
                         status := "processing_heygen" },
                       { job with
                         veo_video_gcs_uri := finalVeoUri,
                         veo_video_url := finalVeoUrl,
                         heygen_asset_id := assetId,
                         heygen_video_id := videoId,
                         progress := 80,
                         status := "processing_heygen" }],
                [.mergeCall sceneUrls ("gs://" ++ env.gcsBucket ++ "/"
                    ++ pyOrId db0.product_id db0.id ++ "/merged/final.mp4"),
                 .uploadAsset finalVeoUrl, .genAvatar assetId, .pollStatus videoId],
                by simp, by simp, rfl, rfl,
                fun _ => ⟨Or.inr (Or.inr (Or.inr rfl)), ?_⟩, fun j h => by cases h⟩
              intro s hs
              simp only [List.mem_cons, List.mem_singleton, List.not_mem_nil,
                or_false] at hs
              rcases hs with rfl | rfl | rfl <;> exact ⟨rfl, rfl⟩
            | ok finalUrl =>
              refine ⟨[{ job with
                         veo_video_gcs_uri := finalVeoUri,
                         veo_video_url := finalVeoUrl,
                         progress := 60,
                         status := "processing_heygen" },
                       { job with
                         veo_video_gcs_uri := finalVeoUri,
                         veo_video_url := finalVeoUrl,
                         heygen_asset_id := assetId,
                         progress := 70,
                         status := "processing_heygen" },
                       { job with
                         veo_video_gcs_uri := finalVeoUri,
                         veo_video_url := finalVeoUrl,
                         heygen_asset_id := assetId,
                         heygen_video_id := videoId,
                         progress := 80,
                         status := "processing_heygen" }],
                [.mergeCall sceneUrls ("gs://" ++ env.gcsBucket ++ "/"
                    ++ pyOrId db0.product_id db0.id ++ "/merged/final.mp4"),
                 .uploadAsset finalVeoUrl, .genAvatar assetId, .pollStatus videoId],
                by simp, by simp, rfl, rfl,
                fun _ => ⟨Or.inr (Or.inr (Or.inr rfl)), ?_⟩, fun j h => by cases h⟩
              intro s hs
              simp only [List.mem_cons, List.mem_singleton, List.not_mem_nil,
                or_false] at hs
              rcases hs with rfl | rfl | rfl <;> exact ⟨rfl, rfl⟩

theorem midsSplit (m n : Nat) (hm : m ≤ n) :
    (List.range' 1 m).map (fun i => 20 + i * 10)
      ++ (List.range' (1 + m) (n - m)).map (fun i => 20 + i * 10)
    = (List.range' 1 n).map (fun i => 20 + i * 10) := by
  rw [← List.map_append]
  congr 1
  have h := List.range'_append 1 m (n - m) 1
  simp only [one_mul] at h
  rw [h]
  congr 1
  omega

/-- Master characterization of one `try`-body run (`runBody`): the first
persisted write is always the `processing_veo`/progress-10 checkpoint;
on failure the persisted progress sequence is a starting segment of
`bodyCheckpoints` and every snapshot is a `midSave`; on success (a
branch that is unreachable in this repository, see `overlayStage`) the
progress sequence is exactly `bodyCheckpoints ++ [100]` and only the
final snapshot (the returned job: `completed`, progress 100, one
credit) is not a `midSave`; and the body never issues an extend call. -/
theorem runBody_spec (env : PipelineEnv) (db0 : VideoJob) :
    (∃ restSaves, (runBody env db0).saves
        = { db0 with status := "processing_veo", progress := 10 } :: restSaves) ∧
    ((∃ e, (runBody env db0).result = .error e) →
      (∃ t, (runBody env db0).saves.map (·.progress) ++ t
          = bodyCheckpoints db0.scenes_data.length) ∧
      ∀ s ∈ (runBody env db0).saves, midSave db0 s) ∧
    (∀ j, (runBody env db0).result = .ok j →
      (runBody env db0).saves.map (·.progress)
          = bodyCheckpoints db0.scenes_data.length ++ [100] ∧
      (∃ front, (runBody env db0).saves = front ++ [j] ∧
        ∀ s ∈ front, midSave db0 s) ∧
      j.status = "completed" ∧ j.progress = 100 ∧ j.credits_used = 1) ∧
    (runBody env db0).trace.filter isExtendEv = [] := by
  cases hpr : db0.scenes_data.map (buildPrompt db0.product_title) with
  | nil =>
    have hN : db0.scenes_data.length = 0 := by
      have := congrArg List.length hpr
      simpa using this
    have hrb : runBody env db0
        = ⟨.error "list index out of range",
           [{ db0 with status := "processing_veo", progress := 10 }], []⟩ := by
      rw [runBody]
      simp only [hpr]
    rw [hrb, hN]
    refine ⟨⟨[], rfl⟩, ?_, ?_, rfl⟩
    · intro _
      refine ⟨⟨[20, 30, 60, 70, 80], rfl⟩, ?_⟩
      intro s hs
      simp only [List.mem_singleton] at hs
      subst hs
      exact ⟨rfl, Or.inl rfl⟩
    · intro j hj
      cases hj
  | cons p0 prest =>
    have hN : db0.scenes_data.length = prest.length + 1 := by
      have := congrArg List.length hpr
      simpa using this
    cases hg0 : env.genBaseResult 0 with
    | error e =>
      have hrb : runBody env db0
          = ⟨.error e, [{ db0 with status := "processing_veo", progress := 10 }],
             [.genBase 0 p0 ("gs://" ++ env.gcsBucket ++ "/"
               ++ pyOrId db0.product_id db0.id ++ "/" ++ db0.created_date ++ "/"
               ++ "scene_1/")]⟩ := by
        rw [runBody]
        simp only [hpr, hg0]
      rw [hrb, hN]
      refine ⟨⟨[], rfl⟩, ?_, ?_, rfl⟩
      · intro _
        refine ⟨⟨[20, 30] ++ (List.range' 1 (prest.length + 1 - 1)).map
          (fun i => 20 + i * 10) ++ [60, 70, 80], by simp [bodyCheckpoints]⟩, ?_⟩
        intro s hs
        simp only [List.mem_singleton] at hs
        subst hs
        exact ⟨rfl, Or.inl rfl⟩
      · intro j hj
        cases hj
    | ok op0 =>
      cases hp0 : env.pollOpResult 0 with
      | error e =>
        have hrb : runBody env db0
            = ⟨.error e,
               [{ db0 with status := "processing_veo", progress := 10 },
                { db0 with status := "processing_veo", progress := 20 }],
               [.genBase 0 p0 ("gs://" ++ env.gcsBucket ++ "/"
                  ++ pyOrId db0.product_id db0.id ++ "/" ++ db0.created_date ++ "/"
                  ++ "scene_1/"),
                .pollOp 0 ("gs://" ++ env.gcsBucket ++ "/"
                  ++ pyOrId db0.product_id db0.id ++ "/" ++ db0.created_date ++ "/"
                  ++ "scene_1/")]⟩ := by
          rw [runBody]
          simp only [hpr, hg0, hp0, List.cons_append, List.nil_append,
            List.singleton_append]
        rw [hrb, hN]
        refine ⟨⟨[_], rfl⟩, ?_, ?_, rfl⟩
        · intro _
          refine ⟨⟨[30] ++ (List.range' 1 (prest.length + 1 - 1)).map
            (fun i => 20 + i * 10) ++ [60, 70, 80], by simp [bodyCheckpoints]⟩, ?_⟩
          intro s hs
          simp only [List.mem_cons, List.mem_singleton, List.not_mem_nil, or_false] at hs
          rcases hs with rfl | rfl <;> exact ⟨rfl, Or.inl rfl⟩
        · intro j hj
          cases hj
      | ok u0 =>
        obtain ⟨m, hm, pv, hsaves, hjob, hokk, tr, htr, hfe, hfm⟩ :=
          sceneLoop_spec env ("gs://" ++ env.gcsBucket ++ "/"
              ++ pyOrId db0.product_id db0.id ++ "/" ++ db0.created_date ++ "/")
            prest 1 { db0 with status := "processing_veo", progress := 30 }
            [{ db0 with status := "processing_veo", progress := 10 },
             { db0 with status := "processing_veo", progress := 20 },
             { db0 with status := "processing_veo", progress := 30 }]
            [.genBase 0 p0 ("gs://" ++ env.gcsBucket ++ "/"
                ++ pyOrId db0.product_id db0.id ++ "/" ++ db0.created_date ++ "/"
                ++ "scene_1/"),
             .pollOp 0 ("gs://" ++ env.gcsBucket ++ "/"
                ++ pyOrId db0.product_id db0.id ++ "/" ++ db0.created_date ++ "/"
                ++ "scene_1/")]
            [u0]
        cases hres : (sceneLoop env ("gs://" ++ env.gcsBucket ++ "/"
              ++ pyOrId db0.product_id db0.id ++ "/" ++ db0.created_date ++ "/")
            prest 1 { db0 with status := "processing_veo", progress := 30 }
            [{ db0 with status := "processing_veo", progress := 10 },
             { db0 with status := "processing_veo", progress := 20 },
             { db0 with status := "processing_veo", progress := 30 }]
            [.genBase 0 p0 ("gs://" ++ env.gcsBucket ++ "/"
                ++ pyOrId db0.product_id db0.id ++ "/" ++ db0.created_date ++ "/"
                ++ "scene_1/"),
             .pollOp 0 ("gs://" ++ env.gcsBucket ++ "/"
                ++ pyOrId db0.product_id db0.id ++ "/" ++ db0.created_date ++ "/"
                ++ "scene_1/")]
            [u0]).2.2.2 with
        | error e =>
          have hrb : runBody env db0
              = ⟨.error e,
                 (sceneLoop env ("gs://" ++ env.gcsBucket ++ "/"
                    ++ pyOrId db0.product_id db0.id ++ "/" ++ db0.created_date ++ "/")
                  prest 1 { db0 with status := "processing_veo", progress := 30 }
                  [{ db0 with status := "processing_veo", progress := 10 },
                   { db0 with status := "processing_veo", progress := 20 },
                   { db0 with status := "processing_veo", progress := 30 }]
                  [.genBase 0 p0 ("gs://" ++ env.gcsBucket ++ "/"
                      ++ pyOrId db0.product_id db0.id ++ "/" ++ db0.created_date ++ "/"
                      ++ "scene_1/"),
                   .pollOp 0 ("gs://" ++ env.gcsBucket ++ "/"
                      ++ pyOrId db0.product_id db0.id ++ "/" ++ db0.created_date ++ "/"
                      ++ "scene_1/")]
                  [u0]).2.1,
                 (sceneLoop env ("gs://" ++ env.gcsBucket ++ "/"
                    ++ pyOrId db0.product_id db0.id ++ "/" ++ db0.created_date ++ "/")
                  prest 1 { db0 with status := "processing_veo", progress := 30 }
                  [{ db0 with status := "processing_veo", progress := 10 },
                   { db0 with status := "processing_veo", progress := 20 },
                   { db0 with status := "processing_veo", progress := 30 }]
                  [.genBase 0 p0 ("gs://" ++ env.gcsBucket ++ "/"
                      ++ pyOrId db0.product_id db0.id ++ "/" ++ db0.created_date ++ "/"
                      ++ "scene_1/"),
                   .pollOp 0 ("gs://" ++ env.gcsBucket ++ "/"
                      ++ pyOrId db0.product_id db0.id ++ "/" ++ db0.created_date ++ "/"
                      ++ "scene_1/")]
                  [u0]).2.2.1⟩ := by
            rw [runBody]
            simp only [hpr, hg0, hp0, hres, List.cons_append, List.nil_append,
              List.singleton_append]
          rw [hrb, hsaves, htr, hN]
          constructor
          · exact ⟨_, rfl⟩
          constructor
          · intro _
            constructor
            · refine ⟨(List.range' (1 + m) (prest.length - m)).map (fun i => 20 + i * 10)
                ++ [60, 70, 80], ?_⟩
              simp only [List.map_append, List.map_cons, List.map_nil,
                bodyCheckpoints]
              have hc : ((List.range' 1 m).map
                    (fun k =>
                      ({ db0 with status := "processing_veo", progress := 20 + k * 10 }
                        : VideoJob))).map (·.progress)
                  = (List.range' 1 m).map (fun i => 20 + i * 10) := by
                rw [List.map_map]
                rfl
              rw [hc]
              rw [show prest.length + 1 - 1 = prest.length by omega]
              rw [← midsSplit m prest.length hm]
              simp [List.append_assoc]
            · intro s hs
              simp only [List.cons_append, List.nil_append, List.mem_cons,
                List.mem_append, List.mem_map] at hs
              rcases hs with rfl | rfl | hs
              · exact ⟨rfl, Or.inl rfl⟩
              · exact ⟨rfl, Or.inl rfl⟩
              rcases hs with rfl | hs
              · exact ⟨rfl, Or.inl rfl⟩
              · obtain ⟨k, _, rfl⟩ := hs
                exact ⟨rfl, Or.inl rfl⟩
          constructor
          · intro j hj
            cases hj
          · rw [List.filter_append]
            rw [show ([.genBase 0 p0 ("gs://" ++ env.gcsBucket ++ "/"
                ++ pyOrId db0.product_id db0.id ++ "/" ++ db0.created_date ++ "/"
                ++ "scene_1/"),
              .pollOp 0 ("gs://" ++ env.gcsBucket ++ "/"
                ++ pyOrId db0.product_id db0.id ++ "/" ++ db0.created_date ++ "/"
                ++ "scene_1/")] : List CallEvent).filter isExtendEv = [] from rfl]
            rw [hfe]
            rfl
        | ok uris =>
          have hmfull := hokk uris hres
          subst hmfull
          simp only [List.cons_append, List.nil_append, List.singleton_append]
            at hsaves htr hjob
          obtain ⟨zs, tr2, hs2, ht2, hfe2, hfg2, herr2, hok2⟩ :=
            overlayStage_spec env db0
              { db0 with status := "processing_veo", progress := pv }
              ([{ db0 with status := "processing_veo", progress := 10 },
                { db0 with status := "processing_veo", progress := 20 },
                { db0 with status := "processing_veo", progress := 30 }]
                ++ (List.range' 1 prest.length).map
                    (fun k =>
                      ({ db0 with status := "processing_veo", progress := 20 + k * 10 }
                        : VideoJob)))
              ([.genBase 0 p0 ("gs://" ++ env.gcsBucket ++ "/"
                  ++ pyOrId db0.product_id db0.id ++ "/" ++ db0.created_date ++ "/"
                  ++ "scene_1/"),
                .pollOp 0 ("gs://" ++ env.gcsBucket ++ "/"
                  ++ pyOrId db0.product_id db0.id ++ "/" ++ db0.created_date ++ "/"
                  ++ "scene_1/")] ++ tr)
              uris
          have hrb : runBody env db0
              = overlayStage env db0
                  { db0 with status := "processing_veo", progress := pv }
                  ([{ db0 with status := "processing_veo", progress := 10 },
                    { db0 with status := "processing_veo", progress := 20 },
                    { db0 with status := "processing_veo", progress := 30 }]
                    ++ (List.range' 1 prest.length).map
                        (fun k =>
                          ({ db0 with
                             status := "processing_veo",
                             progress := 20 + k * 10 } : VideoJob)))
                  ([.genBase 0 p0 ("gs://" ++ env.gcsBucket ++ "/"
                      ++ pyOrId db0.product_id db0.id ++ "/" ++ db0.created_date ++ "/"
                      ++ "scene_1/"),
                    .pollOp 0 ("gs://" ++ env.gcsBucket ++ "/"
                      ++ pyOrId db0.product_id db0.id ++ "/" ++ db0.created_date ++ "/"
                      ++ "scene_1/")] ++ tr)
                  uris := by
            rw [runBody]
            simp only [hpr, hg0, hp0, hres, List.cons_append, List.nil_append,
              List.singleton_append]
            rw [← hsaves, ← htr, ← hjob]
          have hmids : ((List.range' 1 prest.length).map
                (fun k =>
                  ({ db0 with status := "processing_veo", progress := 20 + k * 10 }
                    : VideoJob))).map (·.progress)
              = (List.range' 1 prest.length).map (fun i => 20 + i * 10) := by
            rw [List.map_map]
            rfl
          have hmid3 : ∀ s ∈ ([{ db0 with status := "processing_veo", progress := 10 },
                { db0 with status := "processing_veo", progress := 20 },
                { db0 with status := "processing_veo", progress := 30 }]
                ++ (List.range' 1 prest.length).map
                    (fun k =>
                      ({ db0 with status := "processing_veo", progress := 20 + k * 10 }
                        : VideoJob))),
              midSave db0 s := by
            intro s hs
            simp only [List.mem_append, List.mem_cons, List.not_mem_nil, or_false,
              List.mem_map] at hs
            rcases hs with (rfl | rfl | rfl) | ⟨k, _, rfl⟩ <;> exact ⟨rfl, Or.inl rfl⟩
          rw [hrb, hN]
          constructor
          · rw [hs2]
            exact ⟨_, rfl⟩
          constructor
          · rintro ⟨e, he⟩
            obtain ⟨hzs, hmidz⟩ := herr2 ⟨e, he⟩
            constructor
            · rw [hs2]
              simp only [List.map_append, hmids, List.map_cons, List.map_nil,
                bodyCheckpoints]
              rw [show prest.length + 1 - 1 = prest.length by omega]
              rcases hzs with hz | hz | hz | hz <;> rw [hz] <;>
                [exact ⟨[60, 70, 80], by simp⟩; exact ⟨[70, 80], by simp⟩;
                 exact ⟨[80], by simp⟩; exact ⟨[], by simp⟩]
            · intro s hs
              rw [hs2] at hs
              rcases List.mem_append.mp hs with hs | hs
              · exact hmid3 s hs
              · obtain ⟨hc, hst⟩ := hmidz s hs
                exact ⟨hc, Or.inr hst⟩
          constructor
          · intro j hj
            obtain ⟨front, hfr, hfm2, hmidf, hjs, hjp, hjc⟩ := hok2 j hj
            have hsv := hs2
            rw [hfr, ← List.append_assoc] at hsv
            refine ⟨?_, ⟨_, hsv, ?_⟩, hjs, hjp, hjc⟩
            · rw [hs2, hfr]
              simp only [List.map_append, hmids, List.map_cons, List.map_nil, hfm2,
                bodyCheckpoints, hjp]
              rw [show prest.length + 1 - 1 = prest.length by omega]
              simp [List.append_assoc]
            · intro s hs
              rcases List.mem_append.mp hs with hs | hs
              · exact hmid3 s hs
              · obtain ⟨hc, hst⟩ := hmidf s hs
                exact ⟨hc, Or.inr hst⟩
          · rw [ht2, List.filter_append, List.filter_append, hfe, hfe2]
            rfl

theorem getLast?_map {α β : Type} (f : α → β) :
    ∀ (l : List α), (l.map f).getLast? = l.getLast?.map f := by
  intro l
  induction l with
  | nil => rfl
  | cons a t ih =>
    cases t with
    | nil => rfl
    | cons b t' =>
      simp only [List.map_cons] at ih ⊢
      rw [List.getLast?_cons_cons, List.getLast?_cons_cons, ih]

theorem monoNat_startSeg : ∀ (ps t : List Nat), monoNat (ps ++ t) = true →
    monoNat ps = true := by
  intro ps
  induction ps with
  | nil => intro t _; rfl
  | cons a ps ih =>
    intro t h
    cases ps with
    | nil => rfl
    | cons b ps' =>
      simp only [List.cons_append, monoNat, Bool.and_eq_true] at h ⊢
      exact ⟨h.1, by have := ih t (by simpa using h.2); simpa using this⟩

theorem monoNat_append_last : ∀ (l : List Nat) (x y : Nat), monoNat l = true →
    l.getLast? = some y → y ≤ x → monoNat (l ++ [x]) = true := by
  intro l
  induction l with
  | nil => intro x y _ hy; cases hy
  | cons a t ih =>
    intro x y hm hy hyx
    cases t with
    | nil =>
      simp only [List.getLast?_singleton, Option.some_inj] at hy
      subst hy
      simp [monoNat, hyx]
    | cons b t' =>
      simp only [monoNat, Bool.and_eq_true] at hm
      rw [List.getLast?_cons_cons] at hy
      simp only [List.cons_append, monoNat, Bool.and_eq_true]
      exact ⟨hm.1, by simpa using ih x y (by simpa using hm.2) hy hyx⟩

/-- When every `generate_base_video` and `poll_operation` call resolves,
the scene loop visits every remaining scene in order and collects the
polled URIs in order. -/
theorem sceneLoop_ok (env : PipelineEnv) (sb : String) (u : Nat → String)
    (hg : ∀ k, ∃ v, env.genBaseResult k = .ok v)
    (hp : ∀ k, env.pollOpResult k = .ok (u k)) :
    ∀ (rest : List String) (i : Nat) (job : VideoJob) (saves : List VideoJob)
      (trace : List CallEvent) (uris : List String),
      (sceneLoop env sb rest i job saves trace uris).2.2.1
        = trace ++ loopEvents sb rest i ∧
      (sceneLoop env sb rest i job saves trace uris).2.2.2
        = .ok (uris ++ (List.range' i rest.length).map u) := by
  intro rest
  induction rest with
  | nil =>
    intro i job saves trace uris
    exact ⟨by simp [sceneLoop, loopEvents], by simp [sceneLoop]⟩
  | cons p rest ih =>
    intro i job saves trace uris
    obtain ⟨v, hv⟩ := hg i
    obtain ⟨h1, h2⟩ := ih (i + 1) { job with progress := 20 + i * 10 }
      (saves ++ [{ job with progress := 20 + i * 10 }])
      (trace ++ [.genBase i p (sb ++ "scene_" ++ toString (i + 1) ++ "/"),
        .pollOp i (sb ++ "scene_" ++ toString (i + 1) ++ "/")])
      (uris ++ [u i])
    rw [sceneLoop]
    simp only [hv, hp i]
    refine ⟨?_, ?_⟩
    · rw [h1, loopEvents]
      simp [List.append_assoc]
    · rw [h2]
      simp [List.range'_succ, List.append_assoc]

theorem mapFetchable_ok (f : String → Except String String) (urlF : String → String)
    (hm : ∀ s, f s = .ok (urlF s)) :
    ∀ us, mapFetchable f us = .ok (us.map urlF) := by
  intro us
  induction us with
  | nil => rfl
  | cons a t ih => rw [mapFetchable, hm a, ih]; rfl

theorem loopEvents_filter_genBase (sb : String) :
    ∀ (rest : List String) (i : Nat),
      (loopEvents sb rest i).filter isGenBaseEv = genBaseEvents sb rest i := by
  intro rest
  induction rest with
  | nil => intro i; rfl
  | cons p rest ih =>
    intro i
    rw [loopEvents, genBaseEvents]
    simp only [List.filter_cons]
    rw [ih (i + 1)]
    rfl

theorem loopEvents_filter_merge (sb : String) :
    ∀ (rest : List String) (i : Nat),
      (loopEvents sb rest i).filter isMergeEv = [] := by
  intro rest
  induction rest with
  | nil => intro i; rfl
  | cons p rest ih =>
    intro i
    rw [loopEvents]
    simp only [List.filter_cons]
    rw [ih (i + 1)]
    rfl

theorem loopEvents_filter_extendEv (sb : String) :
    ∀ (rest : List String) (i : Nat),
      (loopEvents sb rest i).filter isExtendEv = [] := by
  intro rest
  induction rest with
  | nil => intro i; rfl
  | cons p rest ih =>
    intro i
    rw [loopEvents]
    simp only [List.filter_cons]
    rw [ih (i + 1)]
    rfl

theorem genBaseEvents_length (sb : String) :
    ∀ (rest : List String) (i : Nat),
      (genBaseEvents sb rest i).length = rest.length := by
  intro rest
  induction rest with
  | nil => intro i; rfl
  | cons p rest ih =>
    intro i
    rw [genBaseEvents, List.length_cons, ih (i + 1), List.length_cons]

/-- When URL resolution succeeds, `overlayStage` always issues exactly
one merge call — over the resolved URLs in input order — before the
HeyGen stage; the remainder of its trace holds no scene-generation and
no merge events. -/
theorem overlayStage_merge_trace (env : PipelineEnv) (db0 : VideoJob)
    (urlF : String → String) (hm : ∀ s, env.makeFetchableUrl s = .ok (urlF s)) :
    ∀ (job : VideoJob) (saves : List VideoJob) (trace : List CallEvent)
      (uris : List String),
      ∃ tail,
        (overlayStage env db0 job saves trace uris).trace
          = trace ++ .mergeCall (uris.map urlF)
              ("gs://" ++ env.gcsBucket ++ "/" ++ pyOrId db0.product_id db0.id
                ++ "/merged/final.mp4") :: tail ∧
        tail.filter isGenBaseEv = [] ∧ tail.filter isMergeEv = [] ∧
        tail.filter isExtendEv = [] := by
  intro job saves trace uris
  rw [overlayStage]
  rw [mapFetchable_ok env.makeFetchableUrl urlF hm uris]
  simp only
  cases hmg : env.mergeResult (uris.map urlF) ("gs://" ++ env.gcsBucket ++ "/"
      ++ pyOrId db0.product_id db0.id ++ "/merged/final.mp4") with
  | error e => exact ⟨[], by simp, rfl, rfl, rfl⟩
  | ok finalVeoUri =>
    simp only
    rw [hm finalVeoUri]
    simp only
    cases hup : env.uploadAssetResult (urlF finalVeoUri) with
    | error e => exact ⟨[.uploadAsset (urlF finalVeoUri)], by simp, rfl, rfl, rfl⟩
    | ok assetId =>
      simp only
      cases hga : env.genAvatarResult with
      | error e =>
        exact ⟨[.uploadAsset (urlF finalVeoUri), .genAvatar assetId],
          by simp, rfl, rfl, rfl⟩
      | ok videoId =>
        simp only
        cases hps : env.pollStatusResult with
        | error e =>
          exact ⟨[.uploadAsset (urlF finalVeoUri), .genAvatar assetId,
            .pollStatus videoId], by simp, rfl, rfl, rfl⟩
        | ok finalUrl =>
          exact ⟨[.uploadAsset (urlF finalVeoUri), .genAvatar assetId,
            .pollStatus videoId], by simp, rfl, rfl, rfl⟩

/-- How `process_video_job` relates to its body: success persists the
body's final save unchanged; failure re-reads the last persisted row
and writes only `status` and `error_message` on top of it. -/
theorem process_cases (env : PipelineEnv) (db0 : VideoJob) :
    (∀ j, (runBody env db0).result = .ok j →
      process_video_job env db0
        = ⟨j, (runBody env db0).saves, (runBody env db0).trace⟩) ∧
    (∀ e, (runBody env db0).result = .error e →
      process_video_job env db0
        = ⟨{ ((runBody env db0).saves.getLast?).getD db0 with
             status := "failed", error_message := some e },
           (runBody env db0).saves
             ++ [{ ((runBody env db0).saves.getLast?).getD db0 with
                   status := "failed", error_message := some e }],
           (runBody env db0).trace⟩) := by
  cases hb : runBody env db0 with
  | mk res saves trace =>
    cases res with
    | ok j =>
      constructor
      · intro j' hj
        simp only at hj
        injection hj with hj'
        subst hj'
        rw [process_video_job, hb]
      · intro e he
        simp only at he
        cases he
    | error e =>
      constructor
      · intro j' hj
        simp only at hj
        cases hj
      · intro e' he
        simp only at he
        injection he with he'
        subst he'
        rw [process_video_job, hb]

theorem mem_of_getLast?_eq {α : Type} (l : List α) (a : α)
    (h : l.getLast? = some a) : a ∈ l := by
  induction l with
  | nil => cases h
  | cons x t ih =>
    cases t with
    | nil =>
      simp only [List.getLast?_singleton, Option.some_inj] at h
      subst h
      exact List.mem_singleton_self x
    | cons y t' =>
      rw [List.getLast?_cons_cons] at h
      exact List.mem_cons_of_mem x (ih h)

theorem genBaseEvents_map_idx (sb : String) :
    ∀ (rest : List String) (i : Nat),
      (genBaseEvents sb rest i).map evSceneIdx = List.range' i rest.length := by
  intro rest
  induction rest with
  | nil => intro i; rfl
  | cons p rest ih =>
    intro i
    rw [genBaseEvents, List.map_cons, ih (i + 1), List.length_cons,
      List.range'_succ]
    rfl

/-- The run trace equals the body trace: the failure handler issues no
remote calls of its own. -/
theorem process_trace_eq (env : PipelineEnv) (db0 : VideoJob) :
    (process_video_job env db0).trace = (runBody env db0).trace := by
  obtain ⟨hok, herr⟩ := process_cases env db0
  cases hres : (runBody env db0).result with
  | ok j => rw [hok j hres]
  | error e => rw [herr e hres]

/-! ## Claim C1 — shape of the scene-generation stage -/

/-- C1, counterexample.  The claim asserts one `generate_base` call,
N−1 `extend` calls, and no merge.  On a fully successful 3-scene run
the pipeline issues three `generate_base_video` calls, zero extend
calls, and exactly one merge call: tasks.py lines 35-42 call
`generate_base_video` for every scene (never `extend_video`, which no
caller in the repository invokes) and line 46 merges unconditionally. -/
theorem C1_counterexample :
    ¬ ((((process_video_job allOkEnv (sampleJob 3)).trace.filter isGenBaseEv).length = 1)
        ∧ (((process_video_job allOkEnv (sampleJob 3)).trace.filter isMergeEv).length = 0)) ∧
    (((process_video_job allOkEnv (sampleJob 3)).trace.filter isGenBaseEv).length = 3) ∧
    (((process_video_job allOkEnv (sampleJob 3)).trace.filter isMergeEv).length = 1) ∧
    (((process_video_job allOkEnv (sampleJob 3)).trace.filter isExtendEv).length = 0) := by
  refine ⟨by decide, by decide, by decide, by decide⟩

/-- C1 (amended): for every job with N ≥ 1 scenes in which every
`generate_base_video` and `poll_operation` step succeeds (and URL
resolution succeeds), the scene-generation stage issues exactly N
`generate_base_video` calls — one per scene, in scene order — never
calls `extend_video`, and `merge_scene_urls_to_gcs` is invoked exactly
once, over the N resolved scene URLs in scene order. -/
theorem C1_scene_stage (env : PipelineEnv) (db0 : VideoJob)
    (u : Nat → String) (urlF : String → String)
    (hg : ∀ k, ∃ v, env.genBaseResult k = .ok v)
    (hp : ∀ k, env.pollOpResult k = .ok (u k))
    (hm : ∀ s, env.makeFetchableUrl s = .ok (urlF s))
    (hN : db0.scenes_data ≠ []) :
    ((process_video_job env db0).trace.filter isGenBaseEv).map evSceneIdx
      = List.range db0.scenes_data.length ∧
    ((process_video_job env db0).trace.filter isGenBaseEv).length
      = db0.scenes_data.length ∧
    (process_video_job env db0).trace.filter isExtendEv = [] ∧
    (process_video_job env db0).trace.filter isMergeEv
      = [.mergeCall ((List.range db0.scenes_data.length).map (fun k => urlF (u k)))
          ("gs://" ++ env.gcsBucket ++ "/" ++ pyOrId db0.product_id db0.id
            ++ "/merged/final.mp4")] := by
  cases hpr : db0.scenes_data.map (buildPrompt db0.product_title) with
  | nil => exact absurd (List.map_eq_nil_iff.mp hpr) hN
  | cons p0 prest =>
    have hNlen : db0.scenes_data.length = prest.length + 1 := by
      have := congrArg List.length hpr
      simpa using this
    obtain ⟨v0, hg0⟩ := hg 0
    obtain ⟨hlt, hlr⟩ := sceneLoop_ok env ("gs://" ++ env.gcsBucket ++ "/"
        ++ pyOrId db0.product_id db0.id ++ "/" ++ db0.created_date ++ "/") u hg hp
      prest 1 { db0 with status := "processing_veo", progress := 30 }
      [{ db0 with status := "processing_veo", progress := 10 },
       { db0 with status := "processing_veo", progress := 20 },
       { db0 with status := "processing_veo", progress := 30 }]
      [.genBase 0 p0 ("gs://" ++ env.gcsBucket ++ "/"
          ++ pyOrId db0.product_id db0.id ++ "/" ++ db0.created_date ++ "/"
          ++ "scene_1/"),
       .pollOp 0 ("gs://" ++ env.gcsBucket ++ "/"
          ++ pyOrId db0.product_id db0.id ++ "/" ++ db0.created_date ++ "/"
          ++ "scene_1/")]
      [u 0]
    simp only [List.cons_append, List.nil_append, List.singleton_append] at hlt hlr
    have hrb : runBody env db0
        = overlayStage env db0
            (sceneLoop env ("gs://" ++ env.gcsBucket ++ "/"
                ++ pyOrId db0.product_id db0.id ++ "/" ++ db0.created_date ++ "/")
              prest 1 { db0 with status := "processing_veo", progress := 30 }
              [{ db0 with status := "processing_veo", progress := 10 },
               { db0 with status := "processing_veo", progress := 20 },
               { db0 with status := "processing_veo", progress := 30 }]
              [.genBase 0 p0 ("gs://" ++ env.gcsBucket ++ "/"
                  ++ pyOrId db0.product_id db0.id ++ "/" ++ db0.created_date ++ "/"
                  ++ "scene_1/"),
               .pollOp 0 ("gs://" ++ env.gcsBucket ++ "/"
                  ++ pyOrId db0.product_id db0.id ++ "/" ++ db0.created_date ++ "/"
                  ++ "scene_1/")]
              [u 0]).1
            (sceneLoop env ("gs://" ++ env.gcsBucket ++ "/"
                ++ pyOrId db0.product_id db0.id ++ "/" ++ db0.created_date ++ "/")
              prest 1 { db0 with status := "processing_veo", progress := 30 }
              [{ db0 with status := "processing_veo", progress := 10 },
               { db0 with status := "processing_veo", progress := 20 },
               { db0 with status := "processing_veo", progress := 30 }]
              [.genBase 0 p0 ("gs://" ++ env.gcsBucket ++ "/"
                  ++ pyOrId db0.product_id db0.id ++ "/" ++ db0.created_date ++ "/"
                  ++ "scene_1/"),
               .pollOp 0 ("gs://" ++ env.gcsBucket ++ "/"
                  ++ pyOrId db0.product_id db0.id ++ "/" ++ db0.created_date ++ "/"
                  ++ "scene_1/")]
              [u 0]).2.1
            (sceneLoop env ("gs://" ++ env.gcsBucket ++ "/"
                ++ pyOrId db0.product_id db0.id ++ "/" ++ db0.created_date ++ "/")
              prest 1 { db0 with status := "processing_veo", progress := 30 }
              [{ db0 with status := "processing_veo", progress := 10 },
               { db0 with status := "processing_veo", progress := 20 },
               { db0 with status := "processing_veo", progress := 30 }]
              [.genBase 0 p0 ("gs://" ++ env.gcsBucket ++ "/"
                  ++ pyOrId db0.product_id db0.id ++ "/" ++ db0.created_date ++ "/"
                  ++ "scene_1/"),
               .pollOp 0 ("gs://" ++ env.gcsBucket ++ "/"
                  ++ pyOrId db0.product_id db0.id ++ "/" ++ db0.created_date ++ "/"
                  ++ "scene_1/")]
              [u 0]).2.2.1
            (u 0 :: (List.range' 1 prest.length).map u) := by
      rw [runBody]
      simp only [hpr, hg0, hp 0, hlr, List.cons_append, List.nil_append,
        List.singleton_append]
    obtain ⟨tail, htl, hfg, hfm, hfx⟩ :=
      overlayStage_merge_trace env db0 urlF hm
        (sceneLoop env ("gs://" ++ env.gcsBucket ++ "/"
            ++ pyOrId db0.product_id db0.id ++ "/" ++ db0.created_date ++ "/")
          prest 1 { db0 with status := "processing_veo", progress := 30 }
          [{ db0 with status := "processing_veo", progress := 10 },
           { db0 with status := "processing_veo", progress := 20 },
           { db0 with status := "processing_veo", progress := 30 }]
          [.genBase 0 p0 ("gs://" ++ env.gcsBucket ++ "/"
              ++ pyOrId db0.product_id db0.id ++ "/" ++ db0.created_date ++ "/"
              ++ "scene_1/"),
           .pollOp 0 ("gs://" ++ env.gcsBucket ++ "/"
              ++ pyOrId db0.product_id db0.id ++ "/" ++ db0.created_date ++ "/"
              ++ "scene_1/")]
          [u 0]).1
        (sceneLoop env ("gs://" ++ env.gcsBucket ++ "/"
            ++ pyOrId db0.product_id db0.id ++ "/" ++ db0.created_date ++ "/")
          prest 1 { db0 with status := "processing_veo", progress := 30 }
          [{ db0 with status := "processing_veo", progress := 10 },
           { db0 with status := "processing_veo", progress := 20 },
           { db0 with status := "processing_veo", progress := 30 }]
          [.genBase 0 p0 ("gs://" ++ env.gcsBucket ++ "/"
              ++ pyOrId db0.product_id db0.id ++ "/" ++ db0.created_date ++ "/"
              ++ "scene_1/"),
           .pollOp 0 ("gs://" ++ env.gcsBucket ++ "/"
              ++ pyOrId db0.product_id db0.id ++ "/" ++ db0.created_date ++ "/"
              ++ "scene_1/")]
          [u 0]).2.1
        (sceneLoop env ("gs://" ++ env.gcsBucket ++ "/"
            ++ pyOrId db0.product_id db0.id ++ "/" ++ db0.created_date ++ "/")
          prest 1 { db0 with status := "processing_veo", progress := 30 }
          [{ db0 with status := "processing_veo", progress := 10 },
           { db0 with status := "processing_veo", progress := 20 },
           { db0 with status := "processing_veo", progress := 30 }]
          [.genBase 0 p0 ("gs://" ++ env.gcsBucket ++ "/"
              ++ pyOrId db0.product_id db0.id ++ "/" ++ db0.created_date ++ "/"
              ++ "scene_1/"),
           .pollOp 0 ("gs://" ++ env.gcsBucket ++ "/"
              ++ pyOrId db0.product_id db0.id ++ "/" ++ db0.created_date ++ "/"
              ++ "scene_1/")]
          [u 0]).2.2.1
        (u 0 :: (List.range' 1 prest.length).map u)
    have htrace : (process_video_job env db0).trace
        = (.genBase 0 p0 ("gs://" ++ env.gcsBucket ++ "/"
            ++ pyOrId db0.product_id db0.id ++ "/" ++ db0.created_date ++ "/"
            ++ "scene_1/")
          :: .pollOp 0 ("gs://" ++ env.gcsBucket ++ "/"
            ++ pyOrId db0.product_id db0.id ++ "/" ++ db0.created_date ++ "/"
            ++ "scene_1/")
          :: loopEvents ("gs://" ++ env.gcsBucket ++ "/"
            ++ pyOrId db0.product_id db0.id ++ "/" ++ db0.created_date ++ "/") prest 1)
          ++ .mergeCall ((u 0 :: (List.range' 1 prest.length).map u).map urlF)
              ("gs://" ++ env.gcsBucket ++ "/" ++ pyOrId db0.product_id db0.id
                ++ "/merged/final.mp4") :: tail := by
      rw [process_trace_eq, hrb, htl, hlt]
    have hurls : (u 0 :: (List.range' 1 prest.length).map u).map urlF
        = (List.range (prest.length + 1)).map (fun k => urlF (u k)) := by
      rw [List.range_eq_range', List.range'_succ, List.map_cons, List.map_cons,
        List.map_map]
      rfl
    rw [htrace, hNlen]
    refine ⟨?_, ?_, ?_, ?_⟩
    · rw [List.filter_append]
      have h1 : List.filter isGenBaseEv
            ((.genBase 0 p0 ("gs://" ++ env.gcsBucket ++ "/"
                ++ pyOrId db0.product_id db0.id ++ "/" ++ db0.created_date ++ "/"
                ++ "scene_1/")
              : CallEvent)
              :: .pollOp 0 ("gs://" ++ env.gcsBucket ++ "/"
                ++ pyOrId db0.product_id db0.id ++ "/" ++ db0.created_date ++ "/"
                ++ "scene_1/")
              :: loopEvents ("gs://" ++ env.gcsBucket ++ "/"
                ++ pyOrId db0.product_id db0.id ++ "/" ++ db0.created_date ++ "/")
                prest 1)
          = .genBase 0 p0 ("gs://" ++ env.gcsBucket ++ "/"
              ++ pyOrId db0.product_id db0.id ++ "/" ++ db0.created_date ++ "/"
              ++ "scene_1/")
            :: genBaseEvents ("gs://" ++ env.gcsBucket ++ "/"
              ++ pyOrId db0.product_id db0.id ++ "/" ++ db0.created_date ++ "/")
              prest 1 := by
        simp only [List.filter_cons]
        rw [loopEvents_filter_genBase]
        rfl
      rw [h1, List.filter_cons]
      simp only [isGenBaseEv, Bool.false_eq_true, reduceIte, if_false, hfg,
        List.append_nil]
      rw [List.map_cons, genBaseEvents_map_idx, List.range_eq_range',
        List.range'_succ]
      rfl
    · rw [List.filter_append]
      simp only [List.filter_cons]
      simp [isGenBaseEv, loopEvents_filter_genBase, hfg, genBaseEvents_length]
    · rw [List.filter_append]
      simp only [List.filter_cons]
      simp [isExtendEv, loopEvents_filter_extendEv, hfx]
    · rw [List.filter_append]
      have h1 := loopEvents_filter_merge ("gs://" ++ env.gcsBucket ++ "/"
        ++ pyOrId db0.product_id db0.id ++ "/" ++ db0.created_date ++ "/") prest 1
      simp only [List.filter_cons, isMergeEv, Bool.false_eq_true, reduceIte,
        if_false, h1, List.nil_append]
      rw [hfm, hurls]

/-- C1 witness: the amended theorem at a concrete 2-scene job with the
all-success environment. -/
theorem C1_witness :
    (sampleJob 2).scenes_data ≠ [] ∧
    ((process_video_job allOkEnv (sampleJob 2)).trace.filter isGenBaseEv).length
      = (sampleJob 2).scenes_data.length := by
  refine ⟨by decide, ?_⟩
  exact (C1_scene_stage allOkEnv (sampleJob 2)
    (fun i => "gs://B/s" ++ toString i) (fun s => "f:" ++ s)
    (fun k => ⟨"op" ++ toString k, rfl⟩) (fun k => rfl) (fun s => rfl)
    (by decide)).2.1

/-! ## Claim C2 — no terminal-status guard -/

/-- C2, counterexample.  The claim asserts that a job whose persisted
status is `completed` or `failed` is left unchanged by a subsequent
pipeline invocation.  Re-running the pipeline on a `completed` job (with
the first remote call failing) overwrites its status to `failed` and its
progress to 10: tasks.py line 17 writes `processing_veo` with no
terminal-status check. -/
theorem C2_counterexample :
    terminalJob.status = "completed" ∧
    (process_video_job failFirstEnv terminalJob).db.status = "failed" ∧
    (process_video_job failFirstEnv terminalJob).db.progress = 10 ∧
    (process_video_job failFirstEnv terminalJob).db ≠ terminalJob := by
  refine ⟨rfl, rfl, rfl, by decide⟩

/-- C2 (amended): the pipeline has no terminal-status guard — any
invocation, including one against a job already `completed` or `failed`,
unconditionally persists `status = processing_veo`, `progress = 10` as
its first write, changing the terminal status. -/
theorem C2_no_terminal_guard (env : PipelineEnv) (db0 : VideoJob)
    (h : db0.status = "completed" ∨ db0.status = "failed") :
    (process_video_job env db0).saves.head?
      = some { db0 with status := "processing_veo", progress := 10 } ∧
    db0.status ≠ "processing_veo" := by
  constructor
  · obtain ⟨restSaves, hrs⟩ := (runBody_spec env db0).1
    obtain ⟨hok, herr⟩ := process_cases env db0
    cases hres : (runBody env db0).result with
    | ok j =>
      rw [hok j hres]
      simp only [hrs, List.head?_cons]
    | error e =>
      rw [herr e hres]
      simp only [hrs, List.cons_append, List.head?_cons]
  · rcases h with h | h <;> rw [h] <;> decide

/-- C2 witness: the amended theorem at the completed sample job. -/
theorem C2_witness :
    (process_video_job failFirstEnv terminalJob).saves.head?
      = some { terminalJob with status := "processing_veo", progress := 10 } := by
  exact (C2_no_terminal_guard failFirstEnv terminalJob (Or.inl rfl)).1

/-! ## Claim C3 — progress profile -/

/-- C3, counterexample.  The claim asserts that the persisted progress
sequence is non-decreasing for every run.  With 6 scenes the per-scene
checkpoint reaches `20 + 5·10 = 70` (tasks.py line 38) and the
post-merge checkpoint then writes 60 (line 49): on the 6-scene run in
which every remote step succeeds, the persisted sequence is 10, 20, 30,
30, 40, 50, 60, 70, 60, 70, 80, 80 — not monotone.  (The trailing 80 is
the failure handler's write: after the overlay poll succeeds, line 66
reads `settings.BG_MUSIC_URLS`, which renderly/settings.py never
defines, so the run ends `failed` at progress 80 — the completion write
at lines 83-91 is unreachable.) -/
theorem C3_counterexample :
    progressList (process_video_job allOkEnv (sampleJob 6))
      = [10, 20, 30, 30, 40, 50, 60, 70, 60, 70, 80, 80] ∧
    monoNat (progressList (process_video_job allOkEnv (sampleJob 6))) = false ∧
    (process_video_job allOkEnv (sampleJob 6)).db.status = "failed" := by
  refine ⟨by decide, by decide, by decide⟩

/-- C3 (amended): for every run of a job with at most 5 scenes, the
persisted progress sequence is non-decreasing, ends at exactly 100 when
the run completes successfully, and stays strictly below 100 with
status `failed` otherwise (and every run ends `completed` or `failed`).
With 6 or more scenes the per-scene checkpoint `20 + 10·i` exceeds the
fixed post-merge checkpoint 60, breaking monotonicity (and from 10
scenes it even exceeds 100).  The completed clause is conditional: in
this repository the completion write at tasks.py lines 83-91 is
unreachable (see `overlayStage`), so every run in fact ends `failed`
with all persisted progress values strictly below 100. -/
theorem C3_progress_profile (env : PipelineEnv) (db0 : VideoJob)
    (hN : db0.scenes_data.length ≤ 5) :
    monoNat (progressList (process_video_job env db0)) = true ∧
    ((process_video_job env db0).db.status = "completed" →
      (progressList (process_video_job env db0)).getLast? = some 100 ∧
      (process_video_job env db0).db.progress = 100) ∧
    ((process_video_job env db0).db.status = "failed" →
      ∀ p ∈ progressList (process_video_job env db0), p < 100) ∧
    ((process_video_job env db0).db.status = "completed" ∨
      (process_video_job env db0).db.status = "failed") := by
  have hbc_mono : monoNat (bodyCheckpoints db0.scenes_data.length ++ [100]) = true := by
    set n := db0.scenes_data.length with hn
    clear_value n
    interval_cases n <;> decide
  have hbc_lt : ∀ p ∈ bodyCheckpoints db0.scenes_data.length, p < 100 := by
    set n := db0.scenes_data.length with hn
    clear_value n
    interval_cases n <;> decide
  obtain ⟨hok, herr⟩ := process_cases env db0
  cases hres : (runBody env db0).result with
  | ok j =>
    obtain ⟨hmap, ⟨front, hfr, hmidf⟩, hjs, hjp, hjc⟩ :=
      (runBody_spec env db0).2.2.1 j hres
    rw [hok j hres]
    simp only [progressList]
    rw [hmap]
    refine ⟨hbc_mono, fun _ => ⟨List.getLast?_concat _, hjp⟩, ?_, Or.inl hjs⟩
    intro hcontra
    rw [hjs] at hcontra
    exact absurd hcontra (by decide)
  | error e =>
    obtain ⟨⟨t, hseg⟩, hmidall⟩ := (runBody_spec env db0).2.1 ⟨e, hres⟩
    obtain ⟨restSaves, hrs⟩ := (runBody_spec env db0).1
    cases hgl : (runBody env db0).saves.getLast? with
    | none =>
      rw [List.getLast?_eq_none_iff] at hgl
      rw [hgl] at hrs
      cases hrs
    | some lastS =>
      have hlastp : ((runBody env db0).saves.map (·.progress)).getLast?
          = some lastS.progress := by
        rw [getLast?_map, hgl]
        rfl
      have hmono_body : monoNat ((runBody env db0).saves.map (·.progress)) = true :=
        monoNat_startSeg _ t (by
          rw [hseg]
          exact monoNat_startSeg _ [100] hbc_mono)
      rw [herr e hres]
      simp only [hgl, Option.getD_some, progressList, List.map_append,
        List.map_cons, List.map_nil]
      refine ⟨?_, ?_, ?_, ?_⟩
      · exact monoNat_append_last _ _ lastS.progress hmono_body hlastp (Nat.le_refl _)
      · intro hcontra
        simp at hcontra
      · intro _ p hp
        rcases List.mem_append.mp hp with hp | hp
        · refine hbc_lt p ?_
          rw [← hseg]
          exact List.mem_append_left t hp
        · simp only [List.mem_singleton] at hp
          subst hp
          refine hbc_lt lastS.progress ?_
          rw [← hseg]
          exact List.mem_append_left t
            (mem_of_getLast?_eq _ _ hlastp)
      · exact Or.inr (by simp)

/-- C3 witness: the amended theorem at a concrete 3-scene run in which
every remote step succeeds. -/
theorem C3_witness :
    (sampleJob 3).scenes_data.length ≤ 5 ∧
    monoNat (progressList (process_video_job allOkEnv (sampleJob 3))) = true := by
  refine ⟨by decide, ?_⟩
  exact (C3_progress_profile allOkEnv (sampleJob 3) (by decide)).1

/-! ## Claim C7 — credit accounting -/

/-- C7 (confirmed): in a single pipeline run on a job with no credit
charged yet, `credits_used` is written (to 1) exactly once, in the same
persisted write that sets status `completed` and progress 100 (tasks.py
lines 83-91 — a write that is unreachable in this repository, see
`overlayStage`); every earlier snapshot retains 0, a failed run charges
nothing, and the final row carries a credit iff the run completed. -/
theorem C7_credits (env : PipelineEnv) (db0 : VideoJob)
    (h0 : db0.credits_used = 0) :
    ((process_video_job env db0).db.status = "completed" →
      (process_video_job env db0).db.credits_used = 1 ∧
      ∀ s ∈ (process_video_job env db0).saves.dropLast, s.credits_used = 0) ∧
    ((process_video_job env db0).db.status = "failed" →
      ∀ s ∈ (process_video_job env db0).saves, s.credits_used = 0) ∧
    ((process_video_job env db0).db.credits_used = 1 ↔
      (process_video_job env db0).db.status = "completed") := by
  obtain ⟨hok, herr⟩ := process_cases env db0
  cases hres : (runBody env db0).result with
  | ok j =>
    obtain ⟨hmap, ⟨front, hfr, hmidf⟩, hjs, hjp, hjc⟩ :=
      (runBody_spec env db0).2.2.1 j hres
    rw [hok j hres]
    simp only
    refine ⟨fun _ => ⟨hjc, ?_⟩, ?_, by rw [hjc, hjs]; exact iff_of_true rfl rfl⟩
    · rw [hfr, List.dropLast_concat]
      intro s hs
      rw [(hmidf s hs).1, h0]
    · intro hcontra
      rw [hjs] at hcontra
      exact absurd hcontra (by decide)
  | error e =>
    obtain ⟨⟨t, hseg⟩, hmidall⟩ := (runBody_spec env db0).2.1 ⟨e, hres⟩
    obtain ⟨restSaves, hrs⟩ := (runBody_spec env db0).1
    cases hgl : (runBody env db0).saves.getLast? with
    | none =>
      rw [List.getLast?_eq_none_iff] at hgl
      rw [hgl] at hrs
      cases hrs
    | some lastS =>
      have hlast0 : lastS.credits_used = 0 := by
        rw [(hmidall lastS (mem_of_getLast?_eq _ _ hgl)).1, h0]
      rw [herr e hres]
      simp only [hgl, Option.getD_some]
      refine ⟨?_, ?_, ?_⟩
      · intro hcontra
        exact absurd hcontra (by decide)
      · intro _ s hs
        rcases List.mem_append.mp hs with hs | hs
        · rw [(hmidall s hs).1, h0]
        · simp only [List.mem_singleton] at hs
          subst hs
          exact hlast0
      · rw [hlast0]
        exact iff_of_false (by decide) (by decide)

/-- C7 witness: the credit theorem at a concrete run in which every
remote step succeeds. -/
theorem C7_witness :
    (sampleJob 2).credits_used = 0 ∧
    ((process_video_job allOkEnv (sampleJob 2)).db.credits_used = 1 ↔
      (process_video_job allOkEnv (sampleJob 2)).db.status = "completed") := by
  refine ⟨rfl, ?_⟩
  exact (C7_credits allOkEnv (sampleJob 2) rfl).2.2

/-! ## Claim C9 — failure handler frame -/

/-- C9 (confirmed): whenever the run ends `failed`, the failure handler
(tasks.py lines 92-97) re-read the persisted row (the last checkpoint,
or the initial row when nothing was yet persisted) and wrote exactly
`status = 'failed'` and `error_message = str(e)` on top of it: the
final row equals that base row with only those two fields changed, so
progress, the intermediate artifact references, `final_video_url`,
`credits_used` and `completed_at` all retain their last checkpointed
values. -/
theorem C9_failure_frame (env : PipelineEnv) (db0 : VideoJob) :
    (process_video_job env db0).db.status = "failed" →
      ∃ e, (runBody env db0).result = .error e ∧
        (process_video_job env db0).db
          = { ((runBody env db0).saves.getLast?).getD db0 with
              status := "failed", error_message := some e } ∧
        (process_video_job env db0).saves
          = (runBody env db0).saves ++ [(process_video_job env db0).db] := by
  intro hst
  obtain ⟨hok, herr⟩ := process_cases env db0
  cases hres : (runBody env db0).result with
  | ok j =>
    obtain ⟨_, _, hjs, _, _⟩ := (runBody_spec env db0).2.2.1 j hres
    rw [hok j hres] at hst
    simp only at hst
    rw [hjs] at hst
    exact absurd hst (by decide)
  | error e =>
    refine ⟨e, rfl, ?_, ?_⟩
    · rw [herr e hres]
    · rw [herr e hres]

/-- C9 witness: the frame theorem at a concrete failing run. -/
theorem C9_witness :
    (process_video_job failFirstEnv (sampleJob 1)).db.status = "failed" ∧
    ∃ e, (runBody failFirstEnv (sampleJob 1)).result = .error e ∧
      (process_video_job failFirstEnv (sampleJob 1)).db
        = { ((runBody failFirstEnv (sampleJob 1)).saves.getLast?).getD (sampleJob 1) with
            status := "failed", error_message := some e } ∧
      (process_video_job failFirstEnv (sampleJob 1)).saves
        = (runBody failFirstEnv (sampleJob 1)).saves
            ++ [(process_video_job failFirstEnv (sampleJob 1)).db] := by
  exact ⟨rfl, C9_failure_frame failFirstEnv (sampleJob 1) rfl⟩

end Renderly
